import Mathlib

/-!
Verification of the conversation-orchestration core of the CyberSec_Bot
repository: the guardrail classifier (src/guards.py), the password-game
state machine (src/game.py), the title generator and offtopic marking
(src/llm.py), the session helpers (src/session.py) and the per-turn
orchestrator (app.py, `show_chatbot_ui` chat-input block).

Modelling conventions:
- Python strings are Lean `String`s; character tests (`isupper`, `isdigit`,
  `\w`, lowering) are modelled on the ASCII range, which covers every
  constant appearing in the program.
- `st.session_state` is an explicit `SessionState` record; `st.rerun()`
  ends a turn, so it is modelled by returning the state at that point.
- Persistence (`save_convos`) and rendering are side-effect-free no-ops.
- The Gemini client is a parameter `Option GenClient`; the streamed chat
  call and the title call are oracles supplied by the caller, with the
  exception paths folded into their result exactly as the `try/except`
  blocks do.
- `random.choice([True, False])` draws are explicit boolean parameters.
-/

namespace CyberSecBot

/-! ### Python string primitives -/

/-- Python `str.lower()` (ASCII model, via `Char.toLower`). -/
def lowerS (s : String) : String := String.mk (s.data.map Char.toLower)

/-- A regex `\w` word character: alphanumeric or underscore (ASCII model). -/
def isWordChar (c : Char) : Bool := c.isAlphanum || c == '_'

/-- `needle` is a prefix of `hay` (character lists). -/
def isPrefixL : List Char → List Char → Bool
  | [], _ => true
  | _ :: _, [] => false
  | a :: as, b :: bs => a == b && isPrefixL as bs

/-- If `needle` is a prefix of `hay`, return the rest of `hay` after it. -/
def prefixRest : List Char → List Char → Option (List Char)
  | [], rest => some rest
  | _ :: _, [] => none
  | a :: as, b :: bs => if a == b then prefixRest as bs else none

/-- Python `needle in hay` substring containment, on character lists. -/
def containsL (needle : List Char) : List Char → Bool
  | [] => isPrefixL needle []
  | c :: cs => isPrefixL needle (c :: cs) || containsL needle cs

/-- Python `needle in hay` substring containment on strings. -/
def containsS (needle hay : String) : Bool := containsL needle.data hay.data

/-- `\b` before a match position: no previous character, or a non-word one.
(All banned terms begin and end with word characters, for which this is
exactly the semantics of the regex word boundary.) -/
def okBefore : Option Char → Bool
  | none => true
  | some c => !(isWordChar c)

/-- `\b` after the matched needle: end of input or a non-word character. -/
def okAfter : List Char → Bool
  | [] => true
  | c :: _ => !(isWordChar c)

/-- Try to match `needle` at the current position with word boundaries on
both sides; `prev` is the character just before the position. -/
def wbHere (needle : List Char) (prev : Option Char) (hay : List Char) : Bool :=
  okBefore prev &&
    (match prefixRest needle hay with
     | some rest => okAfter rest
     | none => false)

/-- Scan `hay` for a word-boundary-delimited occurrence of `needle`,
modelling `re.search(rf"\b{re.escape(k)}\b", q)`. -/
def wbSearch (needle : List Char) : Option Char → List Char → Bool
  | prev, [] => wbHere needle prev []
  | prev, c :: cs => wbHere needle prev (c :: cs) || wbSearch needle (some c) cs

/-- Word-boundary (whole-word) containment on strings. -/
def wbContains (needle hay : String) : Bool := wbSearch needle.data none hay.data

/-- Python `str.startswith`. -/
def startsWithS (s pre : String) : Bool := isPrefixL pre.data s.data

/-- Python `str.endswith`. -/
def endsWithS (s suf : String) : Bool := isPrefixL suf.data.reverse s.data.reverse

/-- Python `s[:n]` (slicing by code points). -/
def takeS (s : String) (n : Nat) : String := String.mk (s.data.take n)

/-- Python `str.strip()`: drop leading and trailing whitespace. -/
def trimS (s : String) : String :=
  String.mk (((s.data.dropWhile Char.isWhitespace).reverse.dropWhile
    Char.isWhitespace).reverse)

/-! ### Guardrail classifier (src/guards.py) -/

/-- `BANNED` from src/guards.py (a Python set; order is irrelevant to `any`). -/
def BANNED : List String :=
  ["how to hack", "crack", "ddos", "payload", "exploit", "rat", "keylogger",
   "bypass paywall"]

/-- Flattened `CYBER_TOPICS` from src/guards.py, category by category. -/
def CYBER_TOPICS : List String :=
  -- awareness
  ["phishing", "phishing awareness", "social media safety", "digital footprint",
   "cyber hygiene", "online privacy", "identity theft", "personal data protection",
   "safe browsing", "fake websites", "deepfake", "ai scams", "smishing", "vishing",
   "privacy", "breach", "scam", "malware", "virus", "ransomware",
   "update", "patch", "backup", "encryption", "social engineering",
   "email security", "password manager", "hacking prevention",
   -- auth_access
   "password", "passphrase", "2fa", "two-factor", "multi-factor", "mfa", "otp",
   "authenticator", "biometric authentication", "passwordless login",
   "single sign-on", "identity and access management",
   "privileged access management", "iam", "pam", "account", "login", "sign-in",
   -- network_internet
   "wifi", "router", "network", "vpn", "dns security", "ip spoofing",
   "man-in-the-middle attack", "ssl", "tls", "https", "secure connection",
   -- endpoint_os
   "patch management", "device hardening", "operating system security",
   "mobile security", "byod security", "endpoint protection", "anti-malware",
   "antivirus", "zero trust",
   -- org_process
   "security policy", "risk management", "incident management plan",
   "business continuity", "disaster recovery", "incident response",
   -- cloud_api
   "cloud security", "data residency", "shared responsibility model",
   "api security", "xdr", "extended detection and response", "edr",
   "endpoint detection and response", "mxdr", "managed xdr", "soar",
   "security orchestration automation and response",
   -- threats
   "botnet", "spyware", "keylogger", "trojan", "adware", "ddos",
   "denial of service", "zero-day exploit", "insider threat", "threat detection",
   "threat actor", "cyber attack", "cyber threat",
   -- frameworks
   "iso 27001", "gdpr", "pdpa", "information security", "cybersecurity", "infosec",
   -- education
   "cyber ethics", "digital citizenship", "safe online behavior",
   "security training", "cyberbullying prevention", "security awareness",
   -- common_typos
   "phising", "pishing", "fishing", "phish",
   "pasword", "passwrd", "pass word", "pasphrase",
   "malwear", "malwar", "ransomwear", "randsomware", "addware", "spy ware",
   "cyber security", "cibersecurity", "ciber", "cybersec", "infosecurity",
   "wi-fi", "wi fi", "fire wall", "anti virus", "anti-virus",
   "authentification", "authenication", "priviledge", "hygene"]

/-- The banned-term test of `guardrails_or_offtopic` on a lowercased text. -/
def bannedHit (q : String) : Bool := BANNED.any (fun k => wbContains k q)

/-- The on-topic keyword test of `guardrails_or_offtopic` on a lowercased text. -/
def topicHit (q : String) : Bool := CYBER_TOPICS.any (fun k => containsS k q)

/-- The fixed deny/redirect message returned for banned terms. -/
def DENY_MSG : String :=
  "I can\x27t help with offensive or illegal hacking. " ++
  "Let\x27s focus on defensive skills like phishing detection, strong passwords, and 2FA."

/-- The fixed offtopic guidance message. -/
def OFFTOPIC_MSG : String :=
  "This is a **Cybersecurity Education Bot**. Kindly ask questions related to cybersecurity.\n\n" ++
  "**You can ask about:**\n" ++
  "• Spotting phishing emails/messages\n" ++
  "• Creating strong passwords & using password managers\n" ++
  "• Two-factor authentication (2FA)\n" ++
  "• Privacy settings for phone/social media\n" ++
  "• Securing your home Wi-Fi/router\n" ++
  "• Recognising scams, malware & safe downloading\n" ++
  "• Updates, backups, and account recovery"

/-- `guardrails_or_offtopic` from src/guards.py: `None` is the Allow verdict,
`some DENY_MSG` the Deny verdict, `some OFFTOPIC_MSG` the Offtopic verdict. -/
def guardrails_or_offtopic (user_text : String)
    (history : List (String × String)) : Option String :=
  let q := lowerS user_text
  if bannedHit q then some DENY_MSG
  else if history.length > 0 then none
  else if !topicHit q then some OFFTOPIC_MSG
  else none

/-! ### Data model and session helpers (src/session.py) -/

/-- One conversation: `{"name": ..., "history": [...]}`. History entries are
`(role, text)` pairs with `role` either `"user"` or `"assistant"`. -/
structure Convo where
  name : String
  history : List (String × String)
deriving DecidableEq, Repr

/-- The conversation set: insertion-ordered mapping id → conversation. -/
abbrev Convos := List (String × Convo)

/-- `_new_session` from src/session.py. -/
def new_session : Convo := { name := "New Chat", history := [] }

/-- Dictionary lookup on the conversation set. -/
def lookupC : Convos → String → Option Convo
  | [], _ => none
  | (k0, c) :: tl, k => if k = k0 then some c else lookupC tl k

/-- In-place update `convos[k] = c` of the conversation set. -/
def setConvo (convos : Convos) (k : String) (c : Convo) : Convos :=
  convos.map (fun kv => if kv.1 = k then (k, c) else kv)

/-- The `st.session_state` fields the orchestration core reads and writes. -/
structure SessionState where
  convos : Convos
  active_id : String
  in_password_game : Bool
  password_game_step : Nat
  user_password : String
  password_question_count : Nat
  phishing_question_count : Nat
deriving DecidableEq, Repr

/-- `active_session` from src/session.py: self-heals a dangling `active_id`
(falling back to the first conversation, or creating a fresh one — the
`uuid4` id of that unreachable-in-app branch is modelled as `"new"`), and
returns the healed state together with the active id. -/
def active_session (s : SessionState) : SessionState × String :=
  match lookupC s.convos s.active_id with
  | some _ => (s, s.active_id)
  | none =>
    match s.convos with
    | (k, _) :: _ => ({ s with active_id := k }, k)
    | [] => ({ s with convos := [("new", new_session)], active_id := "new" }, "new")

/-- `active_history` from src/session.py: the value `active_session` ends up
reading.  Written as a direct read: a present `active_id` reads its own
conversation, a dangling one reads the first conversation (the healed
fallback), and an empty set reads the freshly created empty conversation. -/
def activeHistory (s : SessionState) : List (String × String) :=
  match lookupC s.convos s.active_id with
  | some c => c.history
  | none =>
    match s.convos with
    | (_, c0) :: _ => c0.history
    | [] => []

/-- `append_msg` from src/session.py (the `save_convos` persistence call is
a no-op in the model). -/
def append_msg (s : SessionState) (role msg : String) : SessionState :=
  let (s1, k) := active_session s
  match lookupC s1.convos k with
  | some c =>
      { s1 with convos := setConvo s1.convos k { c with history := c.history ++ [(role, msg)] } }
  | none => s1

/-! ### Password-game state machine (src/game.py)

The Python `handle_password_game(user_msg, is_recursive)` re-dispatches on
the step it has just written, so its self-calls are inlined below:
the step-1/step-2 bodies call the step-3 body when they skip ahead, and the
step-3 body calls the step-4 body.  Each function also returns the number of
recursive self-invocations (`is_recursive=True` calls) it performed, which
the Python code makes zero or more times per external call. -/

/-- `has_uppercase` from src/game.py (`c.isupper()`, ASCII model). -/
def has_uppercase (password : String) : Bool := password.data.any Char.isUpper

/-- `has_number` from src/game.py (`c.isdigit()`, ASCII model). -/
def has_number (password : String) : Bool := password.data.any Char.isDigit

/-- The explicit punctuation set of `has_symbol`: `[!@#$%^&*(),.?:{}|<>]`
(the two braces are written via `Char.ofNat`). -/
def symbolChars : List Char :=
  ['!', '@', '#', '$', '%', '^', '&', '*', '(', ')', ',', '.', '?', ':',
   Char.ofNat 0x7b, Char.ofNat 0x7d, '|', '<', '>']

/-- `has_symbol` from src/game.py. -/
def has_symbol (password : String) : Bool :=
  password.data.any (fun c => symbolChars.contains c)

/-- The `echo_text` preamble of src/game.py. -/
def echo_text (user_msg : String) : String :=
  "You entered: `" ++ user_msg ++ "`.\n" ++
  "*(⚠️ **Safety Reminder**: This is a simulation using a fake practice password. " ++
  "Never enter your real passwords here.)*\n\n"

/-- The step-1 skip-ahead message (text already has an uppercase letter). -/
def msg1_has_upper (m : String) : String :=
  echo_text m ++ " Excellent! Your password already has an uppercase letter. Let\x27s move to the next step."

/-- The step-3 progress message (number present, uppercase kept). -/
def msg3_progress (m : String) : String :=
  echo_text m ++ " Awesome! Numbers add another layer of complexity. Finally, let\x27s add a **special symbol** like !, @, #, etc."

/-- The step-4 victory message of src/game.py. -/
def success_msg (m : String) : String :=
  "🎉 **Congratulations!** You\x27ve created a strong password: `" ++ m ++ "`.\n\n" ++
  "It has:\n" ++
  "✅ Uppercase letters\n" ++
  "✅ Numbers\n" ++
  "✅ Special symbols\n\n" ++
  "*(⚠️ **Final Note**: Because you typed this password into a chat interface, you should consider it \x27burned\x27. " ++
  "Do not use this exact password for your real accounts. Use the structure you learned here to create a new one!)*\n\n" ++
  "**Great job! The game is now over. You can continue asking questions about cybersecurity now.**"

/-- The `step == 4` branch of `handle_password_game` (never recurses). -/
def pg_step4 (s0 : SessionState) (m : String) : SessionState :=
  let s := { s0 with user_password := m }
  let missing_requirements : List String :=
    (if !has_uppercase m then ["uppercase letter"] else []) ++
    (if !has_number m then ["number"] else [])
  if missing_requirements ≠ [] then
    append_msg s "assistant"
      (echo_text m ++ " You\x27re adding a symbol, but it looks like you removed the **" ++
       String.intercalate " and " missing_requirements ++
       "**! A strong password needs all three elements together.")
  else if has_symbol m then
    let s := append_msg s "assistant" (success_msg m)
    { s with in_password_game := false, password_game_step := 0,
             password_question_count := 0 }
  else
    append_msg s "assistant"
      (echo_text m ++ " You\x27re so close! You have the uppercase letter and number... just add a **special symbol** (e.g., !, @, #, $) to finish!")

/-- The `step == 3` branch; on progress it sets step 4 and, if a symbol is
already present, re-enters (inlined as a `pg_step4` call, counted). -/
def pg_step3 (s0 : SessionState) (m : String) : SessionState × Nat :=
  let s := { s0 with user_password := m }
  if !has_uppercase m then
    (append_msg s "assistant"
      (echo_text m ++ " Oops! You added a number, but it looks like you lost the **uppercase letter**. Please make sure your password has BOTH an uppercase letter and a number."), 0)
  else if has_number m then
    let s := append_msg s "assistant" (msg3_progress m)
    let s := { s with password_game_step := 4 }
    if has_symbol m then (pg_step4 s m, 1) else (s, 0)
  else
    (append_msg s "assistant"
      (echo_text m ++ " Almost there! You still have the uppercase letter, but don\x27t forget to add a **number**."), 0)

/-- The `step == 1` branch; with an uppercase letter it sets step 3 and, if a
number is already present, re-enters the step-3 logic (counted). -/
def pg_step1 (s0 : SessionState) (m : String) : SessionState × Nat :=
  let s := { s0 with user_password := m }
  if !has_uppercase m then
    let s := append_msg s "assistant"
      (echo_text m ++ " Good start! Now, try adding at least one **uppercase letter** to make it stronger.")
    ({ s with password_game_step := 2 }, 0)
  else
    let s := append_msg s "assistant" (msg1_has_upper m)
    let s := { s with password_game_step := 3 }
    if has_number m then
      let r := pg_step3 s m
      (r.1, r.2 + 1)
    else (s, 0)

/-- The `step == 2` branch. -/
def pg_step2 (s0 : SessionState) (m : String) : SessionState × Nat :=
  let s := { s0 with user_password := m }
  if has_uppercase m then
    let s := append_msg s "assistant"
      (echo_text m ++ " Great job! The uppercase letter makes your password much harder to guess. Now, let\x27s add a **number**.")
    let s := { s with password_game_step := 3 }
    if has_number m then
      let r := pg_step3 s m
      (r.1, r.2 + 1)
    else (s, 0)
  else
    (append_msg s "assistant"
      (echo_text m ++ " Not quite. Remember to add at least one **uppercase letter**. Give it another try!"), 0)

/-- `handle_password_game` from src/game.py, called non-recursively (one
external call): appends the triggering user message once, dispatches on the
current step, and returns the new state together with the number of internal
`is_recursive=True` self-invocations performed. -/
def handle_password_game (s0 : SessionState) (m : String) : SessionState × Nat :=
  let s := append_msg s0 "user" m
  if s.password_game_step = 0 then
    let s := append_msg s "assistant" "Great! Let\x27s start. Please enter a simple passphrase to begin."
    ({ s with password_game_step := 1 }, 0)
  else if s.password_game_step = 1 then pg_step1 s m
  else if s.password_game_step = 2 then pg_step2 s m
  else if s.password_game_step = 3 then pg_step3 s m
  else if s.password_game_step = 4 then (pg_step4 s m, 0)
  else (s, 0)

/-! ### Title generator and offtopic marking (src/llm.py) -/

/-- `_STOPWORDS` from src/llm.py. -/
def STOPWORDS : List String :=
  ["what", "how", "why", "is", "are", "the", "a", "an", "of", "in", "to", "for",
   "on", "with", "and", "or", "my", "your", "our", "their", "this", "that", "it",
   "do", "does", "can", "should", "could", "about", "please", "tell", "me",
   "explain"]

/-- `OFFTOPIC_SUFFIX` from src/llm.py. -/
def OFFTOPIC_SUFFIX : String := " (Not Cybersecurity Related)"

/-- Python `str.split()`: split on runs of whitespace, dropping empties. -/
def splitWsAux (acc : List Char) : List Char → List (List Char)
  | [] => if acc.isEmpty then [] else [acc.reverse]
  | c :: cs =>
    if c.isWhitespace then
      if acc.isEmpty then splitWsAux [] cs else acc.reverse :: splitWsAux [] cs
    else splitWsAux (c :: acc) cs

/-- Python `str.split()` on a string. -/
def splitWs (s : String) : List String := (splitWsAux [] s.data).map String.mk

/-- Python `str.title()` (ASCII model): a letter is uppercased when the
preceding character is not a letter, and lowercased otherwise. -/
def titleAux : Bool → List Char → List Char
  | _, [] => []
  | prevAlpha, c :: cs =>
    if c.isAlpha then
      (if prevAlpha then c.toLower else c.toUpper) :: titleAux true cs
    else c :: titleAux false cs

/-- Python `str.title()` on a string. -/
def titleS (s : String) : String := String.mk (titleAux false s.data)

/-- `_clean_title` from src/llm.py: lowercase, drop characters outside
`[\w\s-]`, split into words, drop stop words, keep the first 6, title-case
the space-join, with `"Chat"` as the empty fallback. -/
def clean_title (text : String) : String :=
  let lowered := String.mk ((lowerS text).data.filter
    (fun c => isWordChar c || c.isWhitespace || c == '-'))
  let words := (splitWs lowered).filter (fun w => !STOPWORDS.contains w)
  let joined := titleS (String.intercalate " " (words.take 6))
  if joined = "" then "Chat" else joined

/-- The current names of all conversations in the set. -/
def convoNames (convos : Convos) : List String := convos.map (fun kv => kv.2.name)

/-- The unbounded `while` of `_ensure_unique_name`, unrolled on fuel; the
fuel used below (`existing.length + 1`) always suffices, because the
candidates `name (2)`, `name (3)`, … are pairwise distinct while `existing`
is finite, so the fuel-exhausted fallback is mathematically unreachable. -/
def ensureUniqueAux (name : String) (existing : List String) : Nat → Nat → String
  | 0, n => name ++ " (" ++ toString n ++ ")"
  | fuel + 1, n =>
    let candidate := name ++ " (" ++ toString n ++ ")"
    if existing.contains candidate then ensureUniqueAux name existing fuel (n + 1)
    else candidate

/-- `_ensure_unique_name` from src/llm.py: the set of current names is built
from all conversations in the set (including the one being renamed). -/
def ensure_unique_name (name : String) (convos : Convos) : String :=
  let existing := convoNames convos
  if !existing.contains name then name
  else ensureUniqueAux name existing (existing.length + 1) 2

/-- The generation client: `gen_title` models
`client.models.generate_content(...)` for titles (`none` folds together an
exception and a falsy response, exactly as the `try/except` and the
`if resp and resp.text` guard do), and `gen_chat` models the streamed chat
call of app.py (its result is the final `collected` text, which on an
exception is the error string the `except` branch builds). -/
structure GenClient where
  gen_title : String → Option String
  gen_chat : String → String

/-- The title prompt of `set_title_from_msgs` (the source file contains the
mojibake bytes `4â€“6`, reproduced here as `â€“`). -/
def title_prompt (user_msgs : List String) : String :=
  "Create a concise 4â€“6 word title for this conversation topic. " ++
  "No punctuation, quotes, emojis, or IDs. Return title only.\n\n" ++
  "User messages:\n- " ++ String.intercalate "\n- " (user_msgs.take 2)

/-- The post-processing of a model-produced title:
`resp.text.strip().replace("\n", " ")` then `re.sub(r'["""\.\!\?\:]', "", t)`
(the character class consists of `"`, `.`, `!`, `?`, `:`). -/
def clean_gen_title (t : String) : String :=
  let t := String.mk ((trimS t).data.map (fun c => if c = '\n' then ' ' else c))
  String.mk (t.data.filter (fun c => !(['"', '.', '!', '?', ':'].contains c)))

/-- The default-name test of src/llm.py:
`name in {"New Chat", "New chat"} or name.startswith("Chat ")`. -/
def isDefaultName (name : String) : Bool :=
  name == "New Chat" || name == "New chat" || startsWithS name "Chat "

/-- `set_title_from_msgs` from src/llm.py.  The empty string stands for the
Python `title = None` state, which no reachable non-empty title equals. -/
def set_title_from_msgs (client : Option GenClient) (convos : Convos)
    (session_id : String) (user_msgs : List String) : Convos :=
  if user_msgs.isEmpty then convos
  else
    match lookupC convos session_id with
    | none => convos
    | some sess =>
      if !isDefaultName sess.name then convos
      else
        let title0 : String :=
          match client with
          | some cl =>
            match cl.gen_title (title_prompt user_msgs) with
            | some txt => if txt = "" then "" else clean_gen_title txt
            | none => ""
          | none => ""
        let title1 := if title0 = "" then
            clean_title (String.intercalate " " (user_msgs.take 2))
          else title0
        let title2 := trimS (takeS title1 40)
        setConvo convos session_id { sess with name := ensure_unique_name title2 convos }

/-- Python `l[-n:]`. -/
def lastN (n : Nat) (l : List String) : List String := l.drop (l.length - n)

/-- The user messages of a history, in order. -/
def userMsgs (history : List (String × String)) : List String :=
  (history.filter (fun rm => rm.1 == "user")).map (fun rm => rm.2)

/-- `mark_offtopic` from src/llm.py: retitle (from the last two user turns)
while the name is still default-ish, then append `OFFTOPIC_SUFFIX` via
`_ensure_unique_name` unless the name already ends with it. -/
def mark_offtopic (client : Option GenClient) (convos : Convos)
    (session_id : String) : Convos :=
  match lookupC convos session_id with
  | none => convos
  | some sess =>
    let convos1 :=
      if startsWithS (lowerS sess.name) "new chat" || startsWithS sess.name "Chat " then
        let user_msgs := lastN 2 (userMsgs sess.history)
        if !user_msgs.isEmpty then
          set_title_from_msgs client convos session_id user_msgs
        else convos
      else convos
    match lookupC convos1 session_id with
    | none => convos1
    | some sess1 =>
      if !(endsWithS sess1.name OFFTOPIC_SUFFIX) then
        setConvo convos1 session_id
          { sess1 with name := ensure_unique_name (sess1.name ++ OFFTOPIC_SUFFIX) convos1 }
      else convos1

/-- `auto_title_if_needed` from src/llm.py. -/
def auto_title_if_needed (client : Option GenClient) (convos : Convos)
    (session_id : String) : Convos :=
  match lookupC convos session_id with
  | none => convos
  | some sess =>
    if !isDefaultName sess.name then convos
    else
      let user_msgs := (userMsgs sess.history).take 2
      if user_msgs.isEmpty then convos
      else set_title_from_msgs client convos session_id user_msgs

/-- `_maybe_update_title_after_first_turn` from src/llm.py (the `st.rerun`
on a name change only redraws the page). -/
def maybe_update_title_after_first_turn (client : Option GenClient)
    (s : SessionState) : SessionState :=
  let hist := match lookupC s.convos s.active_id with
    | some c => c.history
    | none => []
  let u_turns := userMsgs hist
  if u_turns.length = 1 || u_turns.length = 2 then
    { s with convos := auto_title_if_needed client s.convos s.active_id }
  else s

/-- `build_prompt` from src/llm.py. -/
def build_prompt (system_instruction user_msg : String)
    (history : List (String × String)) : String :=
  let convo := ["System: " ++ system_instruction] ++
    (history.drop (history.length - 8)).map
      (fun rm => (if rm.1 == "user" then "User: " else "Tutor: ") ++ rm.2) ++
    ["User: " ++ user_msg, "Tutor:"]
  String.intercalate "\n" convo

/-! ### Turn orchestrator (app.py, `show_chatbot_ui` chat-input block) -/

/-- `SYSTEM_INSTRUCTION` from app.py (the dash in `1–2` is U+2013). -/
def SYSTEM_INSTRUCTION : String :=
  "You are a friendly cybersecurity tutor for beginners and intermediate learners. " ++
  "Teach defensive security concepts including: passwords, phishing, 2FA, privacy, device hygiene, " ++
  "honeypots (defensive decoy systems), firewalls, intrusion detection, threat monitoring, and incident response. " ++
  "You can explain how attacks work from a defensive learning perspective (to help users understand threats), " ++
  "but refuse to teach actual hacking techniques, exploit code, or illegal activities. " ++
  "Use clear, short paragraphs and end with 1–2 actionable tips."

/-- The password-game invite message (`game_msg` in app.py). -/
def game_invite_msg : String :=
  "\n\nWould you like to play a game to better understand what makes a strong password?"

/-- The phishing-quiz message (`quiz_msg` in app.py). -/
def phishing_quiz_msg : String :=
  "\n\n**(⚠️ Safety Reminder)**: As a general rule, **please do not click on random links** you receive online.\n\n" ++
  "However, for this exercise, I am sharing a **genuine, verified link from Google** specifically designed to test your phishing skills:\n" ++
  "👉 https://phishingquiz.withgoogle.com/"

/-- The assistant text recorded when the Gemini client is missing
(`f"⚠️ An error occurred: {e}"` for the raised `ValueError`). -/
def no_client_error_msg : String :=
  "⚠️ An error occurred: Gemini API client not initialized."

/-- `improve_keywords` from app.py. -/
def improve_keywords : List String :=
  ["improve", "better", "secure", "strong", "safe", "strengthen"]

/-- `phishing_test_keywords` from app.py. -/
def phishing_test_keywords : List String :=
  ["test", "quiz", "check", "practice", "game", "spot", "identify"]

/-- Any improvement synonym occurs in the lowercased message. -/
def improveHit (t : String) : Bool :=
  improve_keywords.any (fun k => containsS k (lowerS t))

/-- Any phishing-test keyword occurs in the lowercased message. -/
def phishTestHit (t : String) : Bool :=
  phishing_test_keywords.any (fun k => containsS k (lowerS t))

/-- The `collected` text of the model call of app.py: the streamed response
(or stream-failure error text) when a client exists, and the fixed
no-client error text otherwise. -/
def chatResp (client : Option GenClient) (prompt : String) : String :=
  match client with
  | some cl => cl.gen_chat prompt
  | none => no_client_error_msg

/-- The game-entry test of app.py: the reply is exactly `"yes"`
(case-insensitively) and the previous message is an assistant message
containing the invite phrase. -/
def yes_entry (s : SessionState) (t : String) : Bool :=
  let history := activeHistory s
  lowerS t == "yes" && decide (history.length > 0) &&
    (match history.getLast? with
     | some rm => rm.1 == "assistant" &&
         containsS "would you like to play a game" (lowerS rm.2)
     | none => false)

/-- The two keyword counter increments of app.py (lines 238-242). -/
def bumpCounters (s : SessionState) (t : String) : SessionState :=
  let s := if containsS "password" (lowerS t) then
      { s with password_question_count := s.password_question_count + 1 }
    else s
  if containsS "phishing" (lowerS t) then
    { s with phishing_question_count := s.phishing_question_count + 1 }
  else s

/-- The redirect branch of the chat-input block (app.py lines 245-250):
record the user message and the redirect text, then run `mark_offtopic`
(`st.rerun()` then ends the turn). -/
def denyPath (client : Option GenClient) (s : SessionState)
    (t redirect : String) : SessionState :=
  let s := append_msg s "user" t
  let s := append_msg s "assistant" redirect
  { s with convos := mark_offtopic client s.convos s.active_id }

/-- The model-turn branch of the chat-input block (app.py lines 252-338):
record the user message, call the generation backend on the assembled
prompt, record its response, evaluate the two trigger heuristics, and
update the title. -/
def modelPath (client : Option GenClient) (cp cph : Bool)
    (s : SessionState) (t : String) : SessionState :=
  let s := append_msg s "user" t
  let prompt := build_prompt SYSTEM_INSTRUCTION t (activeHistory s)
  let collected := chatResp client prompt
  let s := append_msg s "assistant" collected
  let trigger_game :=
    (containsS "password" (lowerS t) && improveHit t) ||
    (decide (s.password_question_count ≥ 3) ||
      (s.password_question_count == 2 && cp))
  let s := if trigger_game && !s.in_password_game then
      { (append_msg s "assistant" game_invite_msg) with
        password_question_count := 0 }
    else s
  let trigger_phishing :=
    (containsS "phishing" (lowerS t) && phishTestHit t) ||
    (decide (s.phishing_question_count ≥ 3) ||
      (s.phishing_question_count == 2 && cph))
  let s := if trigger_phishing then
      { (append_msg s "assistant" phishing_quiz_msg) with
        phishing_question_count := 0 }
    else s
  maybe_update_title_after_first_turn client s

/-- One full pass of the chat-input block of `show_chatbot_ui` (app.py):
`st.rerun()` ends the turn, so every `st.rerun()` in the source is modelled
by returning the state reached at that point.  `cp` and `cph` are the
outcomes of the two lazily-drawn `random.choice([True, False])` coin flips
(password trigger and phishing trigger). -/
def processTurn (client : Option GenClient) (cp cph : Bool)
    (s : SessionState) (t : String) : SessionState :=
  if yes_entry s t then
    (handle_password_game { s with in_password_game := true } t).1
  else if s.in_password_game then
    (handle_password_game s t).1
  else
    let s := bumpCounters s t
    if s.in_password_game then s
    else
      match guardrails_or_offtopic t (activeHistory s) with
      | some redirect => denyPath client s t redirect
      | none => modelPath client cp cph s t

/-- The messages appended to the active conversation between two states. -/
def appendedDuring (before after : SessionState) : List (String × String) :=
  (activeHistory after).drop (activeHistory before).length

/-- The active conversation id references a member of the set. -/
def WF (s : SessionState) : Prop := (lookupC s.convos s.active_id).isSome

instance (s : SessionState) : Decidable (WF s) := by
  unfold WF; infer_instance

/-! ### Structural lemmas about the session model -/

lemma lookup_setConvo (l : Convos) (j : String) (c : Convo) (k : String) :
    lookupC (setConvo l j c) k =
      if k = j then (lookupC l j).map (fun _ => c) else lookupC l k := by
  induction l with
  | nil => by_cases hk : k = j <;> simp [setConvo, lookupC, hk]
  | cons kv tl ih =>
    obtain ⟨k0, c0⟩ := kv
    simp only [setConvo, List.map_cons] at ih ⊢
    by_cases h0 : k0 = j
    · subst h0
      rw [if_pos rfl]
      by_cases hk : k = k0
      · subst hk
        simp [lookupC]
      · simp [lookupC, hk, ih]
    · rw [if_neg h0]
      have hj : ¬ j = k0 := fun h => h0 h.symm
      by_cases hk : k = k0
      · subst hk
        simp [lookupC, h0]
      · by_cases hkj : k = j
        · subst hkj
          simp [lookupC, hk, ih]
        · simp [lookupC, hk, hkj, ih]

lemma activeHistory_of_lookup (s : SessionState) (c : Convo)
    (h : lookupC s.convos s.active_id = some c) : activeHistory s = c.history := by
  unfold activeHistory
  simp [h]

lemma append_msg_eq (s : SessionState) (r m : String) (c : Convo)
    (h : lookupC s.convos s.active_id = some c) :
    append_msg s r m =
      { s with convos := (setConvo s.convos s.active_id
          (Convo.mk c.name (c.history ++ [(r, m)]))) } := by
  unfold append_msg active_session
  simp [h]

lemma append_msg_shape (s : SessionState) (r m : String) :
    ∃ l aid, append_msg s r m = { s with convos := l, active_id := aid } := by
  unfold append_msg active_session
  cases h : lookupC s.convos s.active_id with
  | some c =>
    exact ⟨setConvo s.convos s.active_id (Convo.mk c.name (c.history ++ [(r, m)])),
           s.active_id, by simp [h]⟩
  | none =>
    cases hc : s.convos with
    | nil =>
      exact ⟨setConvo [("new", new_session)] "new"
              (Convo.mk new_session.name (new_session.history ++ [(r, m)])),
             "new", by simp [lookupC]⟩
    | cons kv tl =>
      obtain ⟨k0, c0⟩ := kv
      exact ⟨setConvo ((k0, c0) :: tl) k0 (Convo.mk c0.name (c0.history ++ [(r, m)])),
             k0, by simp [lookupC]⟩

lemma append_msg_in_game (s : SessionState) (r m : String) :
    (append_msg s r m).in_password_game = s.in_password_game := by
  obtain ⟨l, aid, h⟩ := append_msg_shape s r m
  rw [h]

lemma append_msg_step (s : SessionState) (r m : String) :
    (append_msg s r m).password_game_step = s.password_game_step := by
  obtain ⟨l, aid, h⟩ := append_msg_shape s r m
  rw [h]

lemma append_msg_pwd_count (s : SessionState) (r m : String) :
    (append_msg s r m).password_question_count = s.password_question_count := by
  obtain ⟨l, aid, h⟩ := append_msg_shape s r m
  rw [h]

lemma append_msg_phish_count (s : SessionState) (r m : String) :
    (append_msg s r m).phishing_question_count = s.phishing_question_count := by
  obtain ⟨l, aid, h⟩ := append_msg_shape s r m
  rw [h]

lemma append_msg_user_password (s : SessionState) (r m : String) :
    (append_msg s r m).user_password = s.user_password := by
  obtain ⟨l, aid, h⟩ := append_msg_shape s r m
  rw [h]

lemma isPrefixL_append_self (x y : List Char) : isPrefixL x (x ++ y) = true := by
  induction x with
  | nil => rfl
  | cons a as ih => simp [isPrefixL, ih]

lemma endsWithS_append (a b : String) : endsWithS (a ++ b) b = true := by
  unfold endsWithS
  have hdata : (a ++ b).data = a.data ++ b.data := rfl
  rw [hdata, List.reverse_append]
  exact isPrefixL_append_self _ _

lemma topicHit_of_password (q : String) (h : containsS "password" q = true) :
    topicHit q = true := by
  unfold topicHit
  rw [List.any_eq_true]
  exact ⟨"password", by decide, h⟩

lemma guard_deny (t : String) (hist : List (String × String))
    (hb : bannedHit (lowerS t) = true) :
    guardrails_or_offtopic t hist = some DENY_MSG := by
  unfold guardrails_or_offtopic
  simp [hb]

lemma guard_allow (t : String) (hist : List (String × String))
    (hb : bannedHit (lowerS t) = false) (ht : topicHit (lowerS t) = true) :
    guardrails_or_offtopic t hist = none := by
  unfold guardrails_or_offtopic
  simp [hb, ht]

lemma lowerS_not_yes_of_password (t : String)
    (hp : containsS "password" (lowerS t) = true) : (lowerS t == "yes") = false := by
  cases h : (lowerS t == "yes") with
  | false => rfl
  | true =>
    exfalso
    rw [eq_of_beq h] at hp
    exact absurd hp (by decide)

lemma lowerS_not_yes_of_banned (t : String)
    (hb : bannedHit (lowerS t) = true) : (lowerS t == "yes") = false := by
  cases h : (lowerS t == "yes") with
  | false => rfl
  | true =>
    exfalso
    rw [eq_of_beq h] at hb
    exact absurd hb (by decide)

lemma yes_entry_false_of_not_yes (s : SessionState) (t : String)
    (h : (lowerS t == "yes") = false) : yes_entry s t = false := by
  unfold yes_entry
  simp [h]

lemma lookup_map_history_set_title (client : Option GenClient) (convos : Convos)
    (sid : String) (msgs : List String) (k : String) :
    (lookupC (set_title_from_msgs client convos sid msgs) k).map Convo.history =
      (lookupC convos k).map Convo.history := by
  unfold set_title_from_msgs
  split
  · rfl
  split
  · rfl
  next sess heq =>
    split
    · rfl
    · rw [lookup_setConvo]
      by_cases hk : k = sid
      · subst hk
        rw [if_pos rfl, heq]
        simp
      · rw [if_neg hk]

lemma lookup_map_history_auto_title (client : Option GenClient) (convos : Convos)
    (sid : String) (k : String) :
    (lookupC (auto_title_if_needed client convos sid) k).map Convo.history =
      (lookupC convos k).map Convo.history := by
  unfold auto_title_if_needed
  split
  · rfl
  next sess heq =>
    split
    · rfl
    · have hset := lookup_map_history_set_title client convos sid
        ((userMsgs sess.history).take 2) k
      by_cases hu : ((userMsgs sess.history).take 2).isEmpty <;> simp [hu, hset]

lemma maybe_title_scalars (client : Option GenClient) (s : SessionState) :
    (maybe_update_title_after_first_turn client s).in_password_game = s.in_password_game ∧
    (maybe_update_title_after_first_turn client s).password_question_count =
      s.password_question_count ∧
    (maybe_update_title_after_first_turn client s).phishing_question_count =
      s.phishing_question_count ∧
    (maybe_update_title_after_first_turn client s).active_id = s.active_id ∧
    (maybe_update_title_after_first_turn client s).password_game_step =
      s.password_game_step := by
  simp only [maybe_update_title_after_first_turn]
  split <;> simp

lemma lookup_auto_title_some (client : Option GenClient) (convos : Convos)
    (sid : String) (c : Convo) (h : lookupC convos sid = some c) :
    ∃ c', lookupC (auto_title_if_needed client convos sid) sid = some c' ∧
      c'.history = c.history := by
  have hh := lookup_map_history_auto_title client convos sid sid
  rw [h] at hh
  cases h2 : lookupC (auto_title_if_needed client convos sid) sid with
  | none =>
    rw [h2] at hh
    simp at hh
  | some c' =>
    rw [h2] at hh
    simp at hh
    exact ⟨c', rfl, hh⟩

lemma maybe_title_lookup (client : Option GenClient) (s : SessionState) (c : Convo)
    (h : lookupC s.convos s.active_id = some c) :
    ∃ c', lookupC (maybe_update_title_after_first_turn client s).convos s.active_id
        = some c' ∧ c'.history = c.history := by
  simp only [maybe_update_title_after_first_turn]
  split
  · exact lookup_auto_title_some client s.convos s.active_id c h
  · exact ⟨c, h, rfl⟩

lemma append_msg_lookup (s : SessionState) (r m : String) (c : Convo)
    (hc : lookupC s.convos s.active_id = some c) :
    lookupC (append_msg s r m).convos (append_msg s r m).active_id
      = some (Convo.mk c.name (c.history ++ [(r, m)])) := by
  rw [append_msg_eq s r m c hc]
  simp [lookup_setConvo, hc]

lemma append_msg_active_id (s : SessionState) (r m : String) (c : Convo)
    (hc : lookupC s.convos s.active_id = some c) :
    (append_msg s r m).active_id = s.active_id := by
  rw [append_msg_eq s r m c hc]

lemma activeHistory_append_msg (s : SessionState) (r m : String) (c : Convo)
    (hc : lookupC s.convos s.active_id = some c) :
    activeHistory (append_msg s r m) = activeHistory s ++ [(r, m)] := by
  have h2 := append_msg_lookup s r m c hc
  rw [activeHistory_of_lookup _ _ h2, activeHistory_of_lookup s c hc]

/-! ### Claim theorems -/

/-- C3: For every input text that contains some member of the fixed
banned-term set as a whole word (case-insensitive, word-boundary delimited),
and for every history (empty or not), the guardrail classifier returns the
Deny verdict (`some DENY_MSG`) with its fixed redirect message. -/
theorem C3_banned_term_denies (text : String) (history : List (String × String))
    (h : bannedHit (lowerS text) = true) :
    guardrails_or_offtopic text history = some DENY_MSG :=
  guard_deny text history h

theorem C3_banned_term_denies_witness :
    bannedHit (lowerS "Can you DDoS a site?") = true ∧
    guardrails_or_offtopic "Can you DDoS a site?" [("user", "hi")] = some DENY_MSG :=
  ⟨by decide, C3_banned_term_denies "Can you DDoS a site?" [("user", "hi")] (by decide)⟩

/-- C4: For every input text with no banned term: with empty history and no
on-topic keyword substring the classifier returns the Offtopic verdict
(`some OFFTOPIC_MSG`); with empty history and an on-topic keyword it returns
Allow (`none`); and for every non-empty history it returns Allow. -/
theorem C4_offtopic_gate (text : String) (history : List (String × String))
    (h : bannedHit (lowerS text) = false) :
    guardrails_or_offtopic text history =
      (if history.isEmpty then
        (if topicHit (lowerS text) then none else some OFFTOPIC_MSG)
       else none) := by
  unfold guardrails_or_offtopic
  simp only [h, Bool.false_eq_true, if_false]
  cases history with
  | nil => cases htop : topicHit (lowerS text) <;> simp [htop]
  | cons a l => simp

theorem C4_offtopic_gate_witness :
    bannedHit (lowerS "what is phishing") = false ∧
    guardrails_or_offtopic "what is phishing" [] =
      (if ([] : List (String × String)).isEmpty then
        (if topicHit (lowerS "what is phishing") then none else some OFFTOPIC_MSG)
       else none) :=
  ⟨by decide, C4_offtopic_gate "what is phishing" [] (by decide)⟩

lemma activeHistory_set_step (s : SessionState) (n : Nat) :
    activeHistory { s with password_game_step := n } = activeHistory s := rfl

lemma activeHistory_set_pwd (s : SessionState) (p : String) :
    activeHistory { s with user_password := p } = activeHistory s := rfl

lemma lookup_set_pwd (s : SessionState) (p : String) :
    lookupC ({ s with user_password := p } : SessionState).convos
      ({ s with user_password := p } : SessionState).active_id
      = lookupC s.convos s.active_id := rfl

lemma lookup_set_step (s : SessionState) (n : Nat) :
    lookupC ({ s with password_game_step := n } : SessionState).convos
      ({ s with password_game_step := n } : SessionState).active_id
      = lookupC s.convos s.active_id := rfl

/-- Dispatch equation: an external call at step 1 runs the step-1 body. -/
lemma handle_pg_at_step1 (s : SessionState) (m : String)
    (h : s.password_game_step = 1) :
    handle_password_game s m = pg_step1 (append_msg s "user" m) m := by
  have h1 : (append_msg s "user" m).password_game_step = 1 := by
    rw [append_msg_step, h]
  simp only [handle_password_game, h1]
  norm_num

/-- Dispatch equation: an external call at step 4 runs the step-4 body. -/
lemma handle_pg_at_step4 (s : SessionState) (m : String)
    (h : s.password_game_step = 4) :
    handle_password_game s m = (pg_step4 (append_msg s "user" m) m, 0) := by
  have h1 : (append_msg s "user" m).password_game_step = 4 := by
    rw [append_msg_step, h]
  simp only [handle_password_game, h1]
  norm_num

/-- Step-1 body on a text with an uppercase letter and a digit: the
skip-ahead into the step-3 body fires. -/
lemma pg_step1_upper_num (s : SessionState) (m : String)
    (hu : has_uppercase m = true) (hn : has_number m = true) :
    pg_step1 s m =
      ((pg_step3 { (append_msg { s with user_password := m } "assistant"
          (msg1_has_upper m)) with password_game_step := 3 } m).1,
       (pg_step3 { (append_msg { s with user_password := m } "assistant"
          (msg1_has_upper m)) with password_game_step := 3 } m).2 + 1) := by
  simp only [pg_step1, hu, hn]
  norm_num

/-- Step-3 body on a text with uppercase and digit but no symbol: progress
to step 4 without a further skip-ahead. -/
lemma pg_step3_progress_nosym (s : SessionState) (m : String)
    (hu : has_uppercase m = true) (hn : has_number m = true)
    (hsy : has_symbol m = false) :
    pg_step3 s m =
      ({ (append_msg { s with user_password := m } "assistant"
          (msg3_progress m)) with password_game_step := 4 }, 0) := by
  simp only [pg_step3, hu, hn, hsy]
  norm_num

/-- Step-4 body on a text with uppercase, digit and symbol: victory. -/
lemma pg_step4_victory (s : SessionState) (m : String)
    (hu : has_uppercase m = true) (hn : has_number m = true)
    (hsy : has_symbol m = true) :
    pg_step4 s m =
      { (append_msg { s with user_password := m } "assistant" (success_msg m)) with
        in_password_game := false, password_game_step := 0,
        password_question_count := 0 } := by
  simp only [pg_step4, hu, hn, hsy]
  norm_num

/-- Outcome of the step-3 body on an uppercase+digit, no-symbol text. -/
lemma pg_step3_props (s : SessionState) (m : String) (c : Convo)
    (hc : lookupC s.convos s.active_id = some c)
    (hu : has_uppercase m = true) (hn : has_number m = true)
    (hsy : has_symbol m = false) :
    (pg_step3 s m).1.password_game_step = 4 ∧ (pg_step3 s m).2 = 0 ∧
    activeHistory (pg_step3 s m).1 =
      activeHistory s ++ [("assistant", msg3_progress m)] ∧
    lookupC (pg_step3 s m).1.convos (pg_step3 s m).1.active_id =
      some (Convo.mk c.name (c.history ++ [("assistant", msg3_progress m)])) := by
  rw [pg_step3_progress_nosym s m hu hn hsy]
  refine ⟨rfl, rfl, ?_, ?_⟩
  · exact activeHistory_append_msg ({ s with user_password := m }) "assistant"
      (msg3_progress m) c hc
  · exact append_msg_lookup ({ s with user_password := m }) "assistant"
      (msg3_progress m) c hc

/-- Outcome of the step-1 body on an uppercase+digit, no-symbol text: one
skip-ahead, two assistant messages, final step 4. -/
lemma pg_step1_props (s : SessionState) (m : String) (c : Convo)
    (hc : lookupC s.convos s.active_id = some c)
    (hu : has_uppercase m = true) (hn : has_number m = true)
    (hsy : has_symbol m = false) :
    (pg_step1 s m).1.password_game_step = 4 ∧ (pg_step1 s m).2 = 1 ∧
    activeHistory (pg_step1 s m).1 =
      activeHistory s ++ [("assistant", msg1_has_upper m), ("assistant", msg3_progress m)] := by
  rw [pg_step1_upper_num s m hu hn]
  obtain ⟨p1, p2, p3, _⟩ :=
    pg_step3_props
      ({ (append_msg ({ s with user_password := m }) "assistant"
          (msg1_has_upper m)) with password_game_step := 3 })
      m (Convo.mk c.name (c.history ++ [("assistant", msg1_has_upper m)]))
      (append_msg_lookup ({ s with user_password := m }) "assistant" (msg1_has_upper m) c hc)
      hu hn hsy
  refine ⟨p1, by rw [p2], ?_⟩
  rw [p3]
  have hz : activeHistory
      ({ (append_msg ({ s with user_password := m }) "assistant"
          (msg1_has_upper m)) with password_game_step := 3 }) =
      activeHistory s ++ [("assistant", msg1_has_upper m)] :=
    activeHistory_append_msg ({ s with user_password := m }) "assistant" (msg1_has_upper m) c hc
  rw [hz]
  simp

/-- The concrete in-game session (step 1, one fresh conversation) used by
the game counterexamples. -/
def gameStateAtStep1 : SessionState :=
  { convos := [("c1", { name := "New Chat", history := [] })], active_id := "c1",
    in_password_game := true, password_game_step := 1, user_password := "",
    password_question_count := 0, phishing_question_count := 0 }

/-- C1 counterexample: dispatching `"Abc1"` at step 1 leaves the game at
step 4, not step 3 — the skip-ahead runs the step-3 body, which advances to
step 4 because the text already has a digit. -/
theorem C1_counterexample :
    (handle_password_game gameStateAtStep1 "Abc1").1.password_game_step = 4 ∧
    ¬ (handle_password_game gameStateAtStep1 "Abc1").1.password_game_step = 3 := by
  decide

/-- C1 (amended): dispatching the single text `"Abc1"` at step 1 leaves the
game at step 4 (the skip-ahead runs the step-3 logic, which advances past 3
since a digit is present) after the one external call, and appends exactly
two assistant messages (after the one user message) during that call. -/
theorem C1_amended (s : SessionState) (c : Convo)
    (hstep : s.password_game_step = 1)
    (hc : lookupC s.convos s.active_id = some c) :
    (handle_password_game s "Abc1").1.password_game_step = 4 ∧
    activeHistory (handle_password_game s "Abc1").1 =
      activeHistory s ++ [("user", "Abc1"), ("assistant", msg1_has_upper "Abc1"),
        ("assistant", msg3_progress "Abc1")] := by
  have hu : has_uppercase "Abc1" = true := by decide
  have hn : has_number "Abc1" = true := by decide
  have hsy : has_symbol "Abc1" = false := by decide
  have hc1 := append_msg_lookup s "user" "Abc1" c hc
  have hh1 := activeHistory_append_msg s "user" "Abc1" c hc
  rw [handle_pg_at_step1 s "Abc1" hstep]
  obtain ⟨p1, _, p3⟩ := pg_step1_props (append_msg s "user" "Abc1") "Abc1"
    (Convo.mk c.name (c.history ++ [("user", "Abc1")])) hc1 hu hn hsy
  refine ⟨p1, ?_⟩
  rw [p3, hh1]
  simp

theorem C1_amended_witness :
    (gameStateAtStep1.password_game_step = 1 ∧
     lookupC gameStateAtStep1.convos gameStateAtStep1.active_id =
       some (Convo.mk "New Chat" [])) ∧
    ((handle_password_game gameStateAtStep1 "Abc1").1.password_game_step = 4 ∧
     activeHistory (handle_password_game gameStateAtStep1 "Abc1").1 =
       activeHistory gameStateAtStep1 ++ [("user", "Abc1"),
         ("assistant", msg1_has_upper "Abc1"), ("assistant", msg3_progress "Abc1")]) :=
  ⟨⟨rfl, by decide⟩,
   C1_amended gameStateAtStep1 (Convo.mk "New Chat" []) rfl (by decide)⟩

lemma pg_step3_count (s : SessionState) (m : String) : (pg_step3 s m).2 ≤ 1 := by
  simp only [pg_step3]
  split
  · simp
  split
  · split <;> simp
  · simp

lemma pg_step1_count (s : SessionState) (m : String) : (pg_step1 s m).2 ≤ 2 := by
  simp only [pg_step1]
  split
  · simp
  split
  · exact Nat.succ_le_succ (pg_step3_count _ _)
  · simp

lemma pg_step2_count (s : SessionState) (m : String) : (pg_step2 s m).2 ≤ 2 := by
  simp only [pg_step2]
  split
  · split
    · exact Nat.succ_le_succ (pg_step3_count _ _)
    · simp
  · simp

/-- C2 counterexample: one external call at step 1 with `"Abc1!"` performs
two internal skip-ahead re-evaluations (through the step-3 and step-4
bodies), not at most one. -/
theorem C2_counterexample :
    (handle_password_game gameStateAtStep1 "Abc1!").2 = 2 ∧
    ¬ ((handle_password_game gameStateAtStep1 "Abc1!").2 ≤ 1) := by
  decide

/-- C2 (amended): for every game state and every input text, one external
call to the password-game dispatch performs at most two internal skip-ahead
re-evaluations of that same text (the recursion is bounded and terminates,
but a single call can cascade through two further states, e.g. 1 → 3 → 4). -/
theorem C2_amended (s : SessionState) (t : String) :
    (handle_password_game s t).2 ≤ 2 := by
  simp only [handle_password_game]
  split
  · simp
  split
  · exact pg_step1_count _ _
  split
  · exact pg_step2_count _ _
  split
  · exact Nat.le_trans (pg_step3_count _ _) (by norm_num)
  split
  · simp
  · simp

/-- C10: on the victory transition of the password game (step 4 with
uppercase, digit and symbol all present) the step is reset to 0, the active
flag to false, and the password counter to 0, but `user_password` is not
cleared: it still holds the final winning passphrase. -/
theorem C10_victory_frame (s : SessionState) (t : String)
    (h4 : s.password_game_step = 4)
    (hu : has_uppercase t = true) (hn : has_number t = true)
    (hsy : has_symbol t = true) :
    (handle_password_game s t).1.password_game_step = 0 ∧
    (handle_password_game s t).1.in_password_game = false ∧
    (handle_password_game s t).1.password_question_count = 0 ∧
    (handle_password_game s t).1.user_password = t := by
  rw [handle_pg_at_step4 s t h4]
  rw [pg_step4_victory _ _ hu hn hsy]
  refine ⟨rfl, rfl, rfl, ?_⟩
  show (append_msg ({ (append_msg s "user" t) with user_password := t })
      "assistant" (success_msg t)).user_password = t
  rw [append_msg_user_password]

/-- The concrete in-game session at step 4 used by the C10 witness. -/
def gameStateAtStep4 : SessionState :=
  { gameStateAtStep1 with password_game_step := 4 }

theorem C10_victory_frame_witness :
    (gameStateAtStep4.password_game_step = 4 ∧ has_uppercase "Abc1!" = true ∧
     has_number "Abc1!" = true ∧ has_symbol "Abc1!" = true) ∧
    ((handle_password_game gameStateAtStep4 "Abc1!").1.password_game_step = 0 ∧
     (handle_password_game gameStateAtStep4 "Abc1!").1.in_password_game = false ∧
     (handle_password_game gameStateAtStep4 "Abc1!").1.password_question_count = 0 ∧
     (handle_password_game gameStateAtStep4 "Abc1!").1.user_password = "Abc1!") :=
  ⟨⟨rfl, by decide, by decide, by decide⟩,
   C10_victory_frame gameStateAtStep4 "Abc1!" rfl (by decide) (by decide) (by decide)⟩

lemma bump_convos (s : SessionState) (t : String) :
    (bumpCounters s t).convos = s.convos := by
  unfold bumpCounters
  split <;> split <;> simp

lemma bump_active_id (s : SessionState) (t : String) :
    (bumpCounters s t).active_id = s.active_id := by
  unfold bumpCounters
  split <;> split <;> simp

lemma bump_in_game (s : SessionState) (t : String) :
    (bumpCounters s t).in_password_game = s.in_password_game := by
  unfold bumpCounters
  split <;> split <;> simp

lemma bump_pwd_count (s : SessionState) (t : String) :
    (bumpCounters s t).password_question_count =
      (if containsS "password" (lowerS t) = true then s.password_question_count + 1
       else s.password_question_count) := by
  unfold bumpCounters
  split <;> split <;> simp_all

lemma bump_phish_count (s : SessionState) (t : String) :
    (bumpCounters s t).phishing_question_count =
      (if containsS "phishing" (lowerS t) = true then s.phishing_question_count + 1
       else s.phishing_question_count) := by
  unfold bumpCounters
  split <;> split <;> simp_all

lemma activeHistory_congr (s s' : SessionState) (h1 : s'.convos = s.convos)
    (h2 : s'.active_id = s.active_id) : activeHistory s' = activeHistory s := by
  unfold activeHistory
  rw [h1, h2]

lemma bump_lookup (s : SessionState) (t : String) :
    lookupC (bumpCounters s t).convos (bumpCounters s t).active_id =
      lookupC s.convos s.active_id := by
  rw [bump_convos, bump_active_id]

lemma bump_activeHistory (s : SessionState) (t : String) :
    activeHistory (bumpCounters s t) = activeHistory s :=
  activeHistory_congr s (bumpCounters s t) (bump_convos s t) (bump_active_id s t)

lemma setConvo_keys (l : Convos) (k : String) (c : Convo) :
    (setConvo l k c).map Prod.fst = l.map Prod.fst := by
  induction l with
  | nil => rfl
  | cons kv tl ih =>
    obtain ⟨k0, c0⟩ := kv
    by_cases h0 : k0 = k <;> simp [setConvo, h0] at ih ⊢ <;> simpa [setConvo] using ih

lemma setConvo_cons (k0 : String) (c0 : Convo) (tl : Convos) (k : String) (c : Convo) :
    setConvo ((k0, c0) :: tl) k c =
      (if k0 = k then (k, c) else (k0, c0)) :: setConvo tl k c := rfl

lemma setConvo_not_mem (l : Convos) (k : String) (c : Convo)
    (h : ¬ k ∈ l.map Prod.fst) : setConvo l k c = l := by
  induction l with
  | nil => rfl
  | cons kv tl ih =>
    obtain ⟨k0, c0⟩ := kv
    have h0 : k0 ≠ k := by
      intro hh
      exact h (by simp [hh])
    have htl : ¬ k ∈ tl.map Prod.fst := by
      intro hh
      exact h (by simp [hh])
    rw [setConvo_cons, if_neg h0, ih htl]

lemma convoNames_setConvo (l : Convos) (k : String) (c c' : Convo)
    (hnd : (l.map Prod.fst).Nodup)
    (h : lookupC l k = some c) (hn : c'.name = c.name) :
    convoNames (setConvo l k c') = convoNames l := by
  induction l with
  | nil => rfl
  | cons kv tl ih =>
    obtain ⟨k0, c0⟩ := kv
    simp only [List.map_cons, List.nodup_cons] at hnd
    by_cases h0 : k0 = k
    · subst h0
      have hc0 : c0 = c := by
        have h' := h
        simp [lookupC] at h'
        exact h'
      subst hc0
      have hset : setConvo tl k0 c' = tl := setConvo_not_mem tl k0 c' hnd.1
      rw [setConvo_cons, if_pos rfl, hset]
      simp [convoNames, hn]
    · have hk : ¬ k = k0 := fun hh => h0 hh.symm
      have h' : lookupC tl k = some c := by
        have h2 := h
        simp [lookupC, hk] at h2
        exact h2
      have htail := ih hnd.2 h'
      rw [setConvo_cons, if_neg h0]
      simp [convoNames] at htail ⊢
      exact htail

/-- `mark_offtopic` on a member whose name is not default-ish, does not end
with the suffix, and whose suffixed candidate collides with no name: it
appends the suffix, once. -/
lemma mark_offtopic_plain (client : Option GenClient) (convos : Convos)
    (sid : String) (sess : Convo)
    (h : lookupC convos sid = some sess)
    (h1 : startsWithS (lowerS sess.name) "new chat" = false)
    (h2 : startsWithS sess.name "Chat " = false)
    (h5 : (convoNames convos).contains (sess.name ++ OFFTOPIC_SUFFIX) = false)
    (h6 : endsWithS sess.name OFFTOPIC_SUFFIX = false) :
    mark_offtopic client convos sid =
      setConvo convos sid (Convo.mk (sess.name ++ OFFTOPIC_SUFFIX) sess.history) := by
  unfold mark_offtopic
  rw [h]
  have h5' : ¬ (sess.name ++ OFFTOPIC_SUFFIX) ∈ convoNames convos := by simpa using h5
  simp [h, h1, h2, h6, ensure_unique_name, h5']

/-- `mark_offtopic` on a member whose name is not default-ish and already
ends with the suffix: a no-op. -/
lemma mark_offtopic_noop (client : Option GenClient) (convos : Convos)
    (sid : String) (sess : Convo)
    (h : lookupC convos sid = some sess)
    (h1 : startsWithS (lowerS sess.name) "new chat" = false)
    (h2 : startsWithS sess.name "Chat " = false)
    (h6 : endsWithS sess.name OFFTOPIC_SUFFIX = true) :
    mark_offtopic client convos sid = convos := by
  unfold mark_offtopic
  rw [h]
  simp [h, h1, h2, h6]

/-- The conversation set of the C6 counterexample: the suffixed candidate
for `"a"` collides with `"b"`'s name, so `_ensure_unique_name` appends a
counter, after which the ends-with guard no longer recognises the suffix. -/
def markTwiceConvos : Convos :=
  [("a", { name := "Foo", history := [] }),
   ("b", { name := "Foo (Not Cybersecurity Related)", history := [] })]

/-- C6 counterexample: applying `mark_offtopic` twice to `"a"` in
`markTwiceConvos` renames it twice — the second application appends the
suffix again, so the routine is not idempotent and the suffix occurs twice. -/
theorem C6_counterexample :
    (lookupC (mark_offtopic none markTwiceConvos "a") "a").map Convo.name =
      some "Foo (Not Cybersecurity Related) (2)" ∧
    (lookupC (mark_offtopic none (mark_offtopic none markTwiceConvos "a") "a") "a").map
        Convo.name =
      some "Foo (Not Cybersecurity Related) (2) (Not Cybersecurity Related)" ∧
    ¬ (mark_offtopic none (mark_offtopic none markTwiceConvos "a") "a" =
        mark_offtopic none markTwiceConvos "a") := by
  decide

/-- C6 (amended): for a member conversation whose name is not default-ish
(neither it nor its suffixed form lower-starts with "new chat" or starts
with "Chat "), does not yet end with the suffix, and whose suffixed
candidate collides with no current name, `mark_offtopic` appends the suffix
exactly once and a second application is the identity. -/
theorem C6_amended (client : Option GenClient) (convos : Convos) (sid : String)
    (sess : Convo)
    (h : lookupC convos sid = some sess)
    (h1 : startsWithS (lowerS sess.name) "new chat" = false)
    (h2 : startsWithS sess.name "Chat " = false)
    (h3 : startsWithS (lowerS (sess.name ++ OFFTOPIC_SUFFIX)) "new chat" = false)
    (h4 : startsWithS (sess.name ++ OFFTOPIC_SUFFIX) "Chat " = false)
    (h5 : (convoNames convos).contains (sess.name ++ OFFTOPIC_SUFFIX) = false)
    (h6 : endsWithS sess.name OFFTOPIC_SUFFIX = false) :
    mark_offtopic client (mark_offtopic client convos sid) sid =
      mark_offtopic client convos sid ∧
    (lookupC (mark_offtopic client convos sid) sid).map Convo.name =
      some (sess.name ++ OFFTOPIC_SUFFIX) := by
  have e1 : mark_offtopic client convos sid =
      setConvo convos sid (Convo.mk (sess.name ++ OFFTOPIC_SUFFIX) sess.history) := by
    unfold mark_offtopic
    rw [h]
    have h5' : ¬ (sess.name ++ OFFTOPIC_SUFFIX) ∈ convoNames convos := by simpa using h5
    simp [h, h1, h2, h6, ensure_unique_name, h5']
  have hl1 : lookupC (setConvo convos sid
        (Convo.mk (sess.name ++ OFFTOPIC_SUFFIX) sess.history)) sid =
      some (Convo.mk (sess.name ++ OFFTOPIC_SUFFIX) sess.history) := by
    rw [lookup_setConvo]
    simp [h]
  have e2 : mark_offtopic client
      (setConvo convos sid (Convo.mk (sess.name ++ OFFTOPIC_SUFFIX) sess.history)) sid =
      setConvo convos sid (Convo.mk (sess.name ++ OFFTOPIC_SUFFIX) sess.history) := by
    unfold mark_offtopic
    rw [hl1]
    simp [hl1, h3, h4, endsWithS_append]
  refine ⟨?_, ?_⟩
  · rw [e1, e2]
  · rw [e1, hl1]
    rfl

/-- The collision-free conversation set used by the C6 witness. -/
def markOnceConvos : Convos := [("a", { name := "My Security Chat", history := [] })]

theorem C6_amended_witness :
    (lookupC markOnceConvos "a" = some (Convo.mk "My Security Chat" []) ∧
     startsWithS (lowerS "My Security Chat") "new chat" = false ∧
     startsWithS "My Security Chat" "Chat " = false ∧
     startsWithS (lowerS ("My Security Chat" ++ OFFTOPIC_SUFFIX)) "new chat" = false ∧
     startsWithS ("My Security Chat" ++ OFFTOPIC_SUFFIX) "Chat " = false ∧
     (convoNames markOnceConvos).contains
       ("My Security Chat" ++ OFFTOPIC_SUFFIX) = false ∧
     endsWithS "My Security Chat" OFFTOPIC_SUFFIX = false) ∧
    (mark_offtopic none (mark_offtopic none markOnceConvos "a") "a" =
       mark_offtopic none markOnceConvos "a" ∧
     (lookupC (mark_offtopic none markOnceConvos "a") "a").map Convo.name =
       some ("My Security Chat" ++ OFFTOPIC_SUFFIX)) :=
  ⟨⟨by decide, by decide, by decide, by decide, by decide, by decide, by decide⟩,
   C6_amended none markOnceConvos "a" (Convo.mk "My Security Chat" [])
     (by decide) (by decide) (by decide) (by decide) (by decide) (by decide) (by decide)⟩

/-- Following the claim's wording for C9 (refinement target): the uniqueness
rule compares the candidate only against the names of the OTHER
conversations in the set — excluding the conversation being retitled. -/
def ensure_unique_vs_others (name : String) (convos : Convos) (sid : String) : String :=
  let existing := (convos.filter (fun kv => kv.1 ≠ sid)).map (fun kv => kv.2.name)
  if !existing.contains name then name
  else ensureUniqueAux name existing (existing.length + 1) 2

/-- Following the claim's wording for C9: the whole deterministic fallback
pipeline, with collision checked against the other conversations only. -/
def claimTitleFallback (convos : Convos) (sid : String) (msgs : List String) : String :=
  ensure_unique_vs_others
    (trimS (takeS (clean_title (String.intercalate " " (msgs.take 2))) 40)) convos sid

/-- The single-conversation set of the C9 counterexample: the fallback
candidate equals the conversation's OWN current name. -/
def selfCollideConvos : Convos := [("a", { name := "Chat 123", history := [] })]

set_option maxRecDepth 4000 in
/-- C9 counterexample: with messages `["chat 123"]`, the code's fallback
yields `"Chat 123 (2)"` because `_ensure_unique_name` also collides with the
conversation's own current name, while the claim's pipeline (collision
against other conversations only) yields `"Chat 123"`. -/
theorem C9_counterexample :
    (lookupC (set_title_from_msgs none selfCollideConvos "a" ["chat 123"]) "a").map
        Convo.name = some "Chat 123 (2)" ∧
    claimTitleFallback selfCollideConvos "a" ["chat 123"] = "Chat 123" ∧
    ¬ ((lookupC (set_title_from_msgs none selfCollideConvos "a" ["chat 123"]) "a").map
        Convo.name = some (claimTitleFallback selfCollideConvos "a" ["chat 123"])) := by
  decide

/-- C9 (amended): for every non-empty message list and member conversation
still on a default name, the fallback path (no client) lowercases and strips
punctuation from the space-join of the first two messages, drops stop words,
keeps 6 words, title-cases ("Chat" if empty), truncates to 40 characters and
trims, then applies the uniqueness rule against the names of ALL
conversations in the set, its own included. -/
theorem C9_amended (convos : Convos) (sid : String) (sess : Convo)
    (msgs : List String)
    (h : lookupC convos sid = some sess)
    (hm : msgs ≠ [])
    (hd : isDefaultName sess.name = true) :
    set_title_from_msgs none convos sid msgs =
      setConvo convos sid (Convo.mk
        (ensure_unique_name
          (trimS (takeS (clean_title (String.intercalate " " (msgs.take 2))) 40)) convos)
        sess.history) := by
  have hme : msgs.isEmpty = false := by
    cases msgs with
    | nil => exact absurd rfl hm
    | cons a l => rfl
  unfold set_title_from_msgs
  rw [hme, h]
  simp [hd]

/-- The conversation set of the C9 witness. -/
def titleConvosW : Convos := [("a", { name := "New Chat", history := [] })]

theorem C9_amended_witness :
    (lookupC titleConvosW "a" = some (Convo.mk "New Chat" []) ∧
     (["how do I spot phishing emails", "is this link safe"] : List String) ≠ [] ∧
     isDefaultName "New Chat" = true) ∧
    set_title_from_msgs none titleConvosW "a"
        ["how do I spot phishing emails", "is this link safe"] =
      setConvo titleConvosW "a" (Convo.mk
        (ensure_unique_name
          (trimS (takeS (clean_title (String.intercalate " "
            (["how do I spot phishing emails", "is this link safe"].take 2))) 40))
          titleConvosW)
        []) :=
  ⟨⟨by decide, by decide, by decide⟩,
   C9_amended titleConvosW "a" (Convo.mk "New Chat" [])
     ["how do I spot phishing emails", "is this link safe"] (by decide) (by decide) (by decide)⟩

lemma processTurn_deny_eq (client : Option GenClient) (cp cph : Bool)
    (s : SessionState) (t : String)
    (hyes : yes_entry s t = false)
    (hg : s.in_password_game = false)
    (hden : guardrails_or_offtopic t (activeHistory s) = some DENY_MSG) :
    processTurn client cp cph s t = denyPath client (bumpCounters s t) t DENY_MSG := by
  unfold processTurn
  rw [hyes]
  simp only [Bool.false_eq_true, if_false]
  rw [hg]
  simp only [Bool.false_eq_true, if_false]
  rw [bump_in_game, hg]
  simp only [Bool.false_eq_true, if_false]
  rw [bump_activeHistory, hden]

lemma processTurn_allow_eq (client : Option GenClient) (cp cph : Bool)
    (s : SessionState) (t : String)
    (hyes : yes_entry s t = false)
    (hg : s.in_password_game = false)
    (hallow : guardrails_or_offtopic t (activeHistory s) = none) :
    processTurn client cp cph s t = modelPath client cp cph (bumpCounters s t) t := by
  unfold processTurn
  rw [hyes]
  simp only [Bool.false_eq_true, if_false]
  rw [hg]
  simp only [Bool.false_eq_true, if_false]
  rw [bump_in_game, hg]
  simp only [Bool.false_eq_true, if_false]
  rw [bump_activeHistory, hallow]

/-- The redirect branch appends the offtopic suffix to the active
conversation's name whenever the name is not default-ish, does not already
end with the suffix, and the suffixed candidate is collision-free —
regardless of which redirect message (Deny or Offtopic) was produced. -/
lemma denyPath_name (client : Option GenClient) (s : SessionState)
    (t redirect : String) (c : Convo)
    (hc : lookupC s.convos s.active_id = some c)
    (hnd : (s.convos.map Prod.fst).Nodup)
    (h1 : startsWithS (lowerS c.name) "new chat" = false)
    (h2 : startsWithS c.name "Chat " = false)
    (h5 : (convoNames s.convos).contains (c.name ++ OFFTOPIC_SUFFIX) = false)
    (h6 : endsWithS c.name OFFTOPIC_SUFFIX = false) :
    (lookupC (denyPath client s t redirect).convos s.active_id).map Convo.name =
      some (c.name ++ OFFTOPIC_SUFFIX) := by
  simp only [denyPath]
  rw [append_msg_eq s "user" t c hc]
  have hl1 : lookupC (setConvo s.convos s.active_id
      (Convo.mk c.name (c.history ++ [("user", t)]))) s.active_id =
      some (Convo.mk c.name (c.history ++ [("user", t)])) := by
    rw [lookup_setConvo]
    simp [hc]
  rw [append_msg_eq ({ s with convos := (setConvo s.convos s.active_id
      (Convo.mk c.name (c.history ++ [("user", t)]))) }) "assistant" redirect
    (Convo.mk c.name (c.history ++ [("user", t)])) hl1]
  dsimp only
  have hl2 : lookupC (setConvo (setConvo s.convos s.active_id
        (Convo.mk c.name (c.history ++ [("user", t)]))) s.active_id
        (Convo.mk c.name ((c.history ++ [("user", t)]) ++ [("assistant", redirect)])))
        s.active_id =
      some (Convo.mk c.name ((c.history ++ [("user", t)]) ++ [("assistant", redirect)])) := by
    rw [lookup_setConvo]
    simp [hl1]
  have hnd1 : (((setConvo s.convos s.active_id
      (Convo.mk c.name (c.history ++ [("user", t)]))).map Prod.fst)).Nodup := by
    rw [setConvo_keys]
    exact hnd
  have hnames : convoNames (setConvo (setConvo s.convos s.active_id
        (Convo.mk c.name (c.history ++ [("user", t)]))) s.active_id
        (Convo.mk c.name ((c.history ++ [("user", t)]) ++ [("assistant", redirect)]))) =
      convoNames s.convos := by
    rw [convoNames_setConvo
        (setConvo s.convos s.active_id (Convo.mk c.name (c.history ++ [("user", t)])))
        s.active_id (Convo.mk c.name (c.history ++ [("user", t)]))
        (Convo.mk c.name ((c.history ++ [("user", t)]) ++ [("assistant", redirect)]))
        hnd1 hl1 rfl,
      convoNames_setConvo s.convos s.active_id c
        (Convo.mk c.name (c.history ++ [("user", t)])) hnd hc rfl]
  have h5' : (convoNames (setConvo (setConvo s.convos s.active_id
        (Convo.mk c.name (c.history ++ [("user", t)]))) s.active_id
        (Convo.mk c.name ((c.history ++ [("user", t)]) ++ [("assistant", redirect)])))).contains
        (c.name ++ OFFTOPIC_SUFFIX) = false := by
    rw [hnames]
    exact h5
  rw [mark_offtopic_plain client _ s.active_id
    (Convo.mk c.name ((c.history ++ [("user", t)]) ++ [("assistant", redirect)]))
    hl2 h1 h2 h5' h6]
  rw [lookup_setConvo, if_pos rfl, hl2]
  rfl

/-- The concrete non-first-turn session used by the C7 counterexample. -/
def denyProbeState : SessionState :=
  { convos := [("c1", { name := "My Chat", history := [("user", "x"), ("assistant", "y")] })],
    active_id := "c1", in_password_game := false, password_game_step := 0,
    user_password := "", password_question_count := 0, phishing_question_count := 0 }

set_option maxRecDepth 8000 in
set_option maxHeartbeats 1000000 in
/-- C7 counterexample: the text `"how do I ddos a site"` draws the Deny
verdict (banned term, non-first turn), yet after the turn the conversation's
name carries the `" (Not Cybersecurity Related)"` suffix — a Deny verdict
does trigger the retitle-and-append-suffix routine. -/
theorem C7_counterexample :
    guardrails_or_offtopic "how do I ddos a site"
      [("user", "x"), ("assistant", "y")] = some DENY_MSG ∧
    (lookupC (processTurn none false false denyProbeState
        "how do I ddos a site").convos "c1").map Convo.name =
      some ("My Chat" ++ OFFTOPIC_SUFFIX) := by
  decide

/-- C7 (amended): the retitle-and-append-suffix routine runs whenever the
guardrail returns any redirect verdict outside the password game — on any
turn, for Deny as well as Offtopic.  In particular a Deny verdict (banned
term) appends the `" (Not Cybersecurity Related)"` suffix to the active
conversation's name (shown here for a non-default, collision-free name). -/
theorem C7_amended (client : Option GenClient) (cp cph : Bool)
    (s : SessionState) (t : String) (c : Convo)
    (hc : lookupC s.convos s.active_id = some c)
    (hnd : (s.convos.map Prod.fst).Nodup)
    (hg : s.in_password_game = false)
    (hb : bannedHit (lowerS t) = true)
    (h1 : startsWithS (lowerS c.name) "new chat" = false)
    (h2 : startsWithS c.name "Chat " = false)
    (h5 : (convoNames s.convos).contains (c.name ++ OFFTOPIC_SUFFIX) = false)
    (h6 : endsWithS c.name OFFTOPIC_SUFFIX = false) :
    (lookupC (processTurn client cp cph s t).convos s.active_id).map Convo.name =
      some (c.name ++ OFFTOPIC_SUFFIX) := by
  have hyes : yes_entry s t = false :=
    yes_entry_false_of_not_yes s t (lowerS_not_yes_of_banned t hb)
  rw [processTurn_deny_eq client cp cph s t hyes hg
    (guard_deny t (activeHistory s) hb), ← bump_active_id s t]
  exact denyPath_name client (bumpCounters s t) t DENY_MSG c
    (by rw [bump_lookup]; exact hc)
    (by rw [bump_convos]; exact hnd) h1 h2
    (by rw [bump_convos]; exact h5) h6

set_option maxRecDepth 8000 in
set_option maxHeartbeats 1000000 in
theorem C7_amended_witness :
    (lookupC denyProbeState.convos denyProbeState.active_id =
       some (Convo.mk "My Chat" [("user", "x"), ("assistant", "y")]) ∧
     (denyProbeState.convos.map Prod.fst).Nodup ∧
     denyProbeState.in_password_game = false ∧
     bannedHit (lowerS "how to hack a router") = true ∧
     startsWithS (lowerS "My Chat") "new chat" = false ∧
     startsWithS "My Chat" "Chat " = false ∧
     (convoNames denyProbeState.convos).contains ("My Chat" ++ OFFTOPIC_SUFFIX) = false ∧
     endsWithS "My Chat" OFFTOPIC_SUFFIX = false) ∧
    (lookupC (processTurn none true true denyProbeState
        "how to hack a router").convos denyProbeState.active_id).map Convo.name =
      some ("My Chat" ++ OFFTOPIC_SUFFIX) :=
  ⟨⟨by decide, by decide, rfl, by decide, by decide, by decide, by decide, by decide⟩,
   C7_amended none true true denyProbeState "how to hack a router"
     (Convo.mk "My Chat" [("user", "x"), ("assistant", "y")])
     (by decide) (by decide) rfl (by decide) (by decide) (by decide) (by decide) (by decide)⟩

/-- The mid-conversation session used to probe the prompt the generation
backend receives. -/
def promptProbeState : SessionState :=
  { convos := [("c1", { name := "X", history := [("user", "a"), ("assistant", "b")] })],
    active_id := "c1", in_password_game := false, password_game_step := 0,
    user_password := "", password_question_count := 0, phishing_question_count := 0 }

/-- The identity chat client: its "response" is the exact prompt it was
sent, so the assistant message recorded in the turn IS the prompt string. -/
def promptEchoClient : GenClient :=
  { gen_title := fun _ => none, gen_chat := fun p => p }

set_option maxRecDepth 8000 in
set_option maxHeartbeats 1000000 in
/-- C8 (code bug): app.py appends the user message to the history BEFORE
calling `build_prompt`, so the prompt the backend receives contains the new
user text twice — once from `history[-8:]` and once as the explicit final
`"User: ..."` line — instead of once over the history as it stood before
the message.  Echoing the prompt back as the response exhibits it. -/
theorem C8_prompt_duplicates_user_text :
    appendedDuring promptProbeState
        (processTurn (some promptEchoClient) false false promptProbeState "hello") =
      [("user", "hello"),
       ("assistant", "System: " ++ SYSTEM_INSTRUCTION ++
         "\nUser: a\nTutor: b\nUser: hello\nUser: hello\nTutor:")] := by
  decide

lemma maybe_title_in_game (client : Option GenClient) (s : SessionState) :
    (maybe_update_title_after_first_turn client s).in_password_game =
      s.in_password_game := (maybe_title_scalars client s).1

lemma maybe_title_pwd_count (client : Option GenClient) (s : SessionState) :
    (maybe_update_title_after_first_turn client s).password_question_count =
      s.password_question_count := (maybe_title_scalars client s).2.1

lemma maybe_title_active_id (client : Option GenClient) (s : SessionState) :
    (maybe_update_title_after_first_turn client s).active_id =
      s.active_id := (maybe_title_scalars client s).2.2.2.1

/-- Full characterisation of the model-turn branch for a text whose lowered
form contains no improvement synonym: the appended messages, the resulting
password counter, and the preserved flags. -/
lemma modelPath_props (client : Option GenClient) (cp cph : Bool)
    (s : SessionState) (t : String) (c : Convo)
    (hc : lookupC s.convos s.active_id = some c)
    (hg : s.in_password_game = false)
    (hi : improveHit t = false) :
    (modelPath client cp cph s t).in_password_game = false ∧
    (modelPath client cp cph s t).active_id = s.active_id ∧
    (modelPath client cp cph s t).password_question_count =
      (if (decide (s.password_question_count ≥ 3) ||
           (s.password_question_count == 2 && cp)) = true
       then 0 else s.password_question_count) ∧
    (∃ c', lookupC (modelPath client cp cph s t).convos s.active_id = some c' ∧
      c'.history = c.history ++
        ([("user", t),
          ("assistant", chatResp client (build_prompt SYSTEM_INSTRUCTION t
            (c.history ++ [("user", t)])))] ++
         (if (decide (s.password_question_count ≥ 3) ||
              (s.password_question_count == 2 && cp)) = true
          then [("assistant", game_invite_msg)] else []) ++
         (if ((containsS "phishing" (lowerS t) && phishTestHit t) ||
              (decide (s.phishing_question_count ≥ 3) ||
               (s.phishing_question_count == 2 && cph))) = true
          then [("assistant", phishing_quiz_msg)] else []))) := by
  simp only [modelPath]
  rw [append_msg_eq s "user" t c hc]
  have hl1 : lookupC (setConvo s.convos s.active_id
      (Convo.mk c.name (c.history ++ [("user", t)]))) s.active_id =
      some (Convo.mk c.name (c.history ++ [("user", t)])) := by
    rw [lookup_setConvo]
    simp [hc]
  have hh1 : activeHistory ({ s with convos := (setConvo s.convos s.active_id
      (Convo.mk c.name (c.history ++ [("user", t)]))) }) = c.history ++ [("user", t)] :=
    activeHistory_of_lookup _ _ hl1
  rw [hh1]
  rw [append_msg_eq ({ s with convos := (setConvo s.convos s.active_id
      (Convo.mk c.name (c.history ++ [("user", t)]))) }) "assistant"
    (chatResp client (build_prompt SYSTEM_INSTRUCTION t (c.history ++ [("user", t)])))
    (Convo.mk c.name (c.history ++ [("user", t)])) hl1]
  dsimp only
  rw [hi, hg]
  simp only [Bool.and_false, Bool.false_or, Bool.not_false, Bool.and_true]
  set R := chatResp client (build_prompt SYSTEM_INSTRUCTION t (c.history ++ [("user", t)]))
    with hR
  set c2 := Convo.mk c.name (c.history ++ [("user", t)] ++ [("assistant", R)]) with hc2
  set A2 := setConvo (setConvo s.convos s.active_id
    (Convo.mk c.name (c.history ++ [("user", t)]))) s.active_id c2 with hA2
  have hl2 : lookupC A2 s.active_id = some c2 := by
    rw [hA2, lookup_setConvo]
    simp [hl1]
  set L2 : SessionState :=
    { convos := A2, active_id := s.active_id, in_password_game := false,
      password_game_step := s.password_game_step, user_password := s.user_password,
      password_question_count := s.password_question_count,
      phishing_question_count := s.phishing_question_count } with hL2
  have hl2' : lookupC L2.convos L2.active_id = some c2 := by
    rw [hL2]
    exact hl2
  have hL2game : L2.in_password_game = false := by rw [hL2]
  have hL2aid : L2.active_id = s.active_id := by rw [hL2]
  have hL2count : L2.password_question_count = s.password_question_count := by rw [hL2]
  have hL2phish : L2.phishing_question_count = s.phishing_question_count := by rw [hL2]
  cases hT : (decide (s.password_question_count ≥ 3) ||
      (s.password_question_count == 2 && cp)) with
  | false =>
    simp only [hT, Bool.false_eq_true, if_false]
    rw [hL2phish]
    cases hP : ((containsS "phishing" (lowerS t) && phishTestHit t) ||
        (decide (s.phishing_question_count ≥ 3) ||
          (s.phishing_question_count == 2 && cph))) with
    | false =>
      simp only [hP, Bool.false_eq_true, if_false]
      obtain ⟨c', hx, hy⟩ := maybe_title_lookup client L2 c2 hl2'
      rw [hL2aid] at hx
      refine ⟨?_, ?_, ?_, ⟨c', hx, ?_⟩⟩
      · rw [maybe_title_in_game, hL2game]
      · rw [maybe_title_active_id, hL2aid]
      · rw [maybe_title_pwd_count, hL2count]
      · rw [hy, hc2]
        simp
    | true =>
      simp only [hP, if_true]
      have haidq : (append_msg L2 "assistant" phishing_quiz_msg).active_id =
          L2.active_id := append_msg_active_id L2 _ _ c2 hl2'
      have hq := append_msg_lookup L2 "assistant" phishing_quiz_msg c2 hl2'
      set Xq : SessionState :=
        ⟨(append_msg L2 "assistant" phishing_quiz_msg).convos,
         (append_msg L2 "assistant" phishing_quiz_msg).active_id,
         (append_msg L2 "assistant" phishing_quiz_msg).in_password_game,
         (append_msg L2 "assistant" phishing_quiz_msg).password_game_step,
         (append_msg L2 "assistant" phishing_quiz_msg).user_password,
         (append_msg L2 "assistant" phishing_quiz_msg).password_question_count,
         0⟩ with hXq
      have hlXq : lookupC Xq.convos Xq.active_id =
          some (Convo.mk c2.name (c2.history ++ [("assistant", phishing_quiz_msg)])) := by
        rw [hXq]
        exact hq
      have haXq : Xq.active_id = s.active_id := by
        rw [hXq]
        dsimp only
        rw [haidq, hL2aid]
      obtain ⟨c', hx, hy⟩ := maybe_title_lookup client Xq _ hlXq
      rw [haXq] at hx
      refine ⟨?_, ?_, ?_, ⟨c', hx, ?_⟩⟩
      · rw [maybe_title_in_game, hXq]
        dsimp only
        rw [append_msg_in_game, hL2game]
      · rw [maybe_title_active_id, haXq]
      · rw [maybe_title_pwd_count, hXq]
        dsimp only
        rw [append_msg_pwd_count, hL2count]
      · rw [hy]
        dsimp only
        simp
  | true =>
    simp only [hT, if_true]
    have haidA : (append_msg L2 "assistant" game_invite_msg).active_id =
        L2.active_id := append_msg_active_id L2 _ _ c2 hl2'
    have hqA := append_msg_lookup L2 "assistant" game_invite_msg c2 hl2'
    set XA : SessionState :=
      ⟨(append_msg L2 "assistant" game_invite_msg).convos,
       (append_msg L2 "assistant" game_invite_msg).active_id,
       (append_msg L2 "assistant" game_invite_msg).in_password_game,
       (append_msg L2 "assistant" game_invite_msg).password_game_step,
       (append_msg L2 "assistant" game_invite_msg).user_password,
       0,
       (append_msg L2 "assistant" game_invite_msg).phishing_question_count⟩ with hXA
    have hlXA : lookupC XA.convos XA.active_id =
        some (Convo.mk c2.name (c2.history ++ [("assistant", game_invite_msg)])) := by
      rw [hXA]
      exact hqA
    have haXA : XA.active_id = s.active_id := by
      rw [hXA]
      dsimp only
      rw [haidA, hL2aid]
    have hphXA : XA.phishing_question_count = s.phishing_question_count := by
      rw [hXA]
      dsimp only
      rw [append_msg_phish_count, hL2phish]
    rw [hphXA]
    cases hP : ((containsS "phishing" (lowerS t) && phishTestHit t) ||
        (decide (s.phishing_question_count ≥ 3) ||
          (s.phishing_question_count == 2 && cph))) with
    | false =>
      simp only [hP, Bool.false_eq_true, if_false]
      obtain ⟨c', hx, hy⟩ := maybe_title_lookup client XA _ hlXA
      rw [haXA] at hx
      refine ⟨?_, ?_, ?_, ⟨c', hx, ?_⟩⟩
      · rw [maybe_title_in_game, hXA]
        dsimp only
        rw [append_msg_in_game, hL2game]
      · rw [maybe_title_active_id, haXA]
      · rw [maybe_title_pwd_count, hXA]
      · rw [hy]
        dsimp only
        simp
    | true =>
      simp only [hP, if_true]
      have haidB : (append_msg XA "assistant" phishing_quiz_msg).active_id =
          XA.active_id := append_msg_active_id XA _ _ _ hlXA
      have hqB := append_msg_lookup XA "assistant" phishing_quiz_msg _ hlXA
      set XB : SessionState :=
        ⟨(append_msg XA "assistant" phishing_quiz_msg).convos,
         (append_msg XA "assistant" phishing_quiz_msg).active_id,
         (append_msg XA "assistant" phishing_quiz_msg).in_password_game,
         (append_msg XA "assistant" phishing_quiz_msg).password_game_step,
         (append_msg XA "assistant" phishing_quiz_msg).user_password,
         (append_msg XA "assistant" phishing_quiz_msg).password_question_count,
         0⟩ with hXB
      have hlXB : lookupC XB.convos XB.active_id =
          some (Convo.mk c2.name ((c2.history ++ [("assistant", game_invite_msg)]) ++
            [("assistant", phishing_quiz_msg)])) := by
        rw [hXB]
        exact hqB
      have haXB : XB.active_id = s.active_id := by
        rw [hXB]
        dsimp only
        rw [haidB, haXA]
      obtain ⟨c', hx, hy⟩ := maybe_title_lookup client XB _ hlXB
      rw [haXB] at hx
      refine ⟨?_, ?_, ?_, ⟨c', hx, ?_⟩⟩
      · rw [maybe_title_in_game, hXB]
        dsimp only
        rw [append_msg_in_game, hXA]
        dsimp only
        rw [append_msg_in_game, hL2game]
      · rw [maybe_title_active_id, haXB]
      · rw [maybe_title_pwd_count, hXB]
        dsimp only
        rw [append_msg_pwd_count, hXA]
      · rw [hy]
        dsimp only
        simp

/-- One external allow-path turn on a text containing `"password"` with no
improvement synonym and no banned term: the resulting counter and the
appended messages. -/
lemma processTurn_pwd_turn (client : Option GenClient) (cp cph : Bool)
    (s : SessionState) (t : String) (c : Convo)
    (hc : lookupC s.convos s.active_id = some c)
    (hg : s.in_password_game = false)
    (hb : bannedHit (lowerS t) = false)
    (hp : containsS "password" (lowerS t) = true)
    (hi : improveHit t = false) :
    (processTurn client cp cph s t).in_password_game = false ∧
    (processTurn client cp cph s t).active_id = s.active_id ∧
    (processTurn client cp cph s t).password_question_count =
      (if (decide (s.password_question_count + 1 ≥ 3) ||
           ((s.password_question_count + 1) == 2 && cp)) = true
       then 0 else s.password_question_count + 1) ∧
    (∃ c', lookupC (processTurn client cp cph s t).convos s.active_id = some c' ∧
      c'.history = c.history ++
        ([("user", t),
          ("assistant", chatResp client (build_prompt SYSTEM_INSTRUCTION t
            (c.history ++ [("user", t)])))] ++
         (if (decide (s.password_question_count + 1 ≥ 3) ||
              ((s.password_question_count + 1) == 2 && cp)) = true
          then [("assistant", game_invite_msg)] else []) ++
         (if ((containsS "phishing" (lowerS t) && phishTestHit t) ||
              (decide ((if containsS "phishing" (lowerS t) = true then
                  s.phishing_question_count + 1 else s.phishing_question_count) ≥ 3) ||
               ((if containsS "phishing" (lowerS t) = true then
                  s.phishing_question_count + 1 else s.phishing_question_count) == 2
                 && cph))) = true
          then [("assistant", phishing_quiz_msg)] else []))) := by
  have hyes : yes_entry s t = false :=
    yes_entry_false_of_not_yes s t (lowerS_not_yes_of_password t hp)
  rw [processTurn_allow_eq client cp cph s t hyes hg
    (guard_allow t _ hb (topicHit_of_password _ hp))]
  obtain ⟨g, a, n, e⟩ := modelPath_props client cp cph (bumpCounters s t) t c
    (by rw [bump_lookup]; exact hc)
    (by rw [bump_in_game]; exact hg)
    hi
  rw [bump_pwd_count] at n e
  rw [bump_phish_count] at e
  rw [bump_active_id] at a e
  simp only [hp, if_true] at n e
  exact ⟨g, a, n, e⟩

lemma invite_not_mem (tx rx : String) (b : Bool)
    (hrx : rx ≠ game_invite_msg) :
    ("assistant", game_invite_msg) ∉
      ([("user", tx), ("assistant", rx)] ++ [] ++
        (if b = true then [("assistant", phishing_quiz_msg)] else [])) := by
  cases b <;> simp [Ne.symm hrx]
  decide

/-- The fresh single-conversation session with all counters at zero used by
the trigger-counter claims. -/
def pwdProbeState : SessionState :=
  { convos := [("c1", { name := "New Chat", history := [] })], active_id := "c1",
    in_password_game := false, password_game_step := 0, user_password := "",
    password_question_count := 0, phishing_question_count := 0 }

/-- A stub client whose chat response is always `"ok"`. -/
def okStubClient : GenClient := { gen_title := fun _ => none, gen_chat := fun _ => "ok" }

set_option maxRecDepth 8000 in
set_option maxHeartbeats 1600000 in
/-- C5 counterexample: with the second turn's coin flip `true`, two
consecutive `"password"` turns already fire the invite on the SECOND turn
(count == 2 with a successful coin), and the counter is 0 right after —
the invite does not wait for the third turn on every random outcome. -/
theorem C5_counterexample :
    ("assistant", game_invite_msg) ∈ appendedDuring
        (processTurn (some okStubClient) true false pwdProbeState "password")
        (processTurn (some okStubClient) true false
          (processTurn (some okStubClient) true false pwdProbeState "password")
          "password") ∧
    (processTurn (some okStubClient) true false
        (processTurn (some okStubClient) true false pwdProbeState "password")
        "password").password_question_count = 0 := by
  decide

/-- C5 (amended): starting from a password counter of 0 with the game
inactive, for three consecutive non-game turns whose texts contain
`"password"` but no improvement synonym and no banned term, and whose model
responses are not the invite text: if the second turn's count==2 coin flip
is false, the invite is appended exactly on the third turn (not the first
or second), and the counter is 0 immediately afterwards.  (If that coin is
true, the invite fires already on the second turn.) -/
theorem C5_amended (client : Option GenClient) (cp1 cph1 cph2 cp3 cph3 : Bool)
    (s : SessionState) (t1 t2 t3 : String) (c : Convo)
    (hc : lookupC s.convos s.active_id = some c)
    (hg : s.in_password_game = false)
    (hcount : s.password_question_count = 0)
    (hchat : ∀ p, chatResp client p ≠ game_invite_msg)
    (hb1 : bannedHit (lowerS t1) = false)
    (hp1 : containsS "password" (lowerS t1) = true)
    (hi1 : improveHit t1 = false)
    (hb2 : bannedHit (lowerS t2) = false)
    (hp2 : containsS "password" (lowerS t2) = true)
    (hi2 : improveHit t2 = false)
    (hb3 : bannedHit (lowerS t3) = false)
    (hp3 : containsS "password" (lowerS t3) = true)
    (hi3 : improveHit t3 = false) :
    ("assistant", game_invite_msg) ∉ appendedDuring s
        (processTurn client cp1 cph1 s t1) ∧
    ("assistant", game_invite_msg) ∉ appendedDuring
        (processTurn client cp1 cph1 s t1)
        (processTurn client false cph2 (processTurn client cp1 cph1 s t1) t2) ∧
    ("assistant", game_invite_msg) ∈ appendedDuring
        (processTurn client false cph2 (processTurn client cp1 cph1 s t1) t2)
        (processTurn client cp3 cph3
          (processTurn client false cph2 (processTurn client cp1 cph1 s t1) t2) t3) ∧
    (processTurn client cp3 cph3
        (processTurn client false cph2 (processTurn client cp1 cph1 s t1) t2)
        t3).password_question_count = 0 := by
  obtain ⟨g1, a1, n1, c1', hl1, hh1⟩ :=
    processTurn_pwd_turn client cp1 cph1 s t1 c hc hg hb1 hp1 hi1
  rw [hcount] at n1 hh1
  have hT1 : (decide (0 + 1 ≥ 3) || ((0 + 1) == 2 && cp1)) = false := by simp
  rw [hT1] at n1 hh1
  simp only [Bool.false_eq_true, if_false] at n1 hh1
  rw [← a1] at hl1
  obtain ⟨g2, a2, n2, c2', hl2, hh2⟩ :=
    processTurn_pwd_turn client false cph2 (processTurn client cp1 cph1 s t1) t2
      c1' hl1 g1 hb2 hp2 hi2
  rw [n1] at n2 hh2
  have hT2 : (decide (0 + 1 + 1 ≥ 3) || ((0 + 1 + 1) == 2 && false)) = false := by decide
  rw [hT2] at n2 hh2
  simp only [Bool.false_eq_true, if_false] at n2 hh2
  rw [← a2] at hl2
  obtain ⟨g3, a3, n3, c3', hl3, hh3⟩ :=
    processTurn_pwd_turn client cp3 cph3
      (processTurn client false cph2 (processTurn client cp1 cph1 s t1) t2) t3
      c2' hl2 g2 hb3 hp3 hi3
  rw [n2] at n3 hh3
  have hT3 : ∀ b : Bool, (decide (0 + 1 + 1 + 1 ≥ 3) || ((0 + 1 + 1 + 1) == 2 && b)) = true := by
    decide
  rw [hT3 cp3] at n3 hh3
  simp only [if_true] at n3 hh3
  rw [← a3] at hl3
  have hau1 : activeHistory (processTurn client cp1 cph1 s t1) = c1'.history :=
    activeHistory_of_lookup _ _ hl1
  have hau2 : activeHistory
      (processTurn client false cph2 (processTurn client cp1 cph1 s t1) t2) =
      c2'.history := activeHistory_of_lookup _ _ hl2
  have hau3 : activeHistory
      (processTurn client cp3 cph3
        (processTurn client false cph2 (processTurn client cp1 cph1 s t1) t2) t3) =
      c3'.history := activeHistory_of_lookup _ _ hl3
  have hd1 : appendedDuring s (processTurn client cp1 cph1 s t1) =
      [("user", t1),
       ("assistant", chatResp client (build_prompt SYSTEM_INSTRUCTION t1
         (c.history ++ [("user", t1)])))] ++ [] ++
      (if ((containsS "phishing" (lowerS t1) && phishTestHit t1) ||
           (decide ((if containsS "phishing" (lowerS t1) = true then
               s.phishing_question_count + 1 else s.phishing_question_count) ≥ 3) ||
            ((if containsS "phishing" (lowerS t1) = true then
               s.phishing_question_count + 1 else s.phishing_question_count) == 2
              && cph1))) = true
       then [("assistant", phishing_quiz_msg)] else []) := by
    unfold appendedDuring
    rw [hau1, hh1, activeHistory_of_lookup s c hc, List.drop_left]
  have hd2 : appendedDuring (processTurn client cp1 cph1 s t1)
      (processTurn client false cph2 (processTurn client cp1 cph1 s t1) t2) =
      [("user", t2),
       ("assistant", chatResp client (build_prompt SYSTEM_INSTRUCTION t2
         (c1'.history ++ [("user", t2)])))] ++ [] ++
      (if ((containsS "phishing" (lowerS t2) && phishTestHit t2) ||
           (decide ((if containsS "phishing" (lowerS t2) = true then
               (processTurn client cp1 cph1 s t1).phishing_question_count + 1
             else (processTurn client cp1 cph1 s t1).phishing_question_count) ≥ 3) ||
            ((if containsS "phishing" (lowerS t2) = true then
               (processTurn client cp1 cph1 s t1).phishing_question_count + 1
             else (processTurn client cp1 cph1 s t1).phishing_question_count) == 2
              && cph2))) = true
       then [("assistant", phishing_quiz_msg)] else []) := by
    unfold appendedDuring
    rw [hau2, hh2, hau1, List.drop_left]
  refine ⟨?_, ?_, ?_, n3⟩
  · rw [hd1]
    exact invite_not_mem t1 _ _ (hchat _)
  · rw [hd2]
    exact invite_not_mem t2 _ _ (hchat _)
  · unfold appendedDuring
    rw [hau3, hh3, hau2, List.drop_left]
    simp

set_option maxRecDepth 4000 in
set_option maxHeartbeats 800000 in
/-- Witness for C5_amended: three `"password"` turns from the fresh probe
state with the stub client, the second turn's coin false: the invite is
appended exactly on the third turn and the counter resets to 0. -/
theorem C5_amended_witness :
    lookupC pwdProbeState.convos pwdProbeState.active_id =
      some { name := "New Chat", history := [] } ∧
    pwdProbeState.in_password_game = false ∧
    pwdProbeState.password_question_count = 0 ∧
    bannedHit (lowerS "password") = false ∧
    containsS "password" (lowerS "password") = true ∧
    improveHit "password" = false ∧
    (("assistant", game_invite_msg) ∉ appendedDuring pwdProbeState
        (processTurn (some okStubClient) true false pwdProbeState "password") ∧
     ("assistant", game_invite_msg) ∉ appendedDuring
        (processTurn (some okStubClient) true false pwdProbeState "password")
        (processTurn (some okStubClient) false false
          (processTurn (some okStubClient) true false pwdProbeState "password")
          "password") ∧
     ("assistant", game_invite_msg) ∈ appendedDuring
        (processTurn (some okStubClient) false false
          (processTurn (some okStubClient) true false pwdProbeState "password")
          "password")
        (processTurn (some okStubClient) true false
          (processTurn (some okStubClient) false false
            (processTurn (some okStubClient) true false pwdProbeState "password")
            "password")
          "password") ∧
     (processTurn (some okStubClient) true false
        (processTurn (some okStubClient) false false
          (processTurn (some okStubClient) true false pwdProbeState "password")
          "password")
        "password").password_question_count = 0) := by
  refine ⟨by decide, by decide, by decide, by decide, by decide, by decide, ?_⟩
  exact C5_amended (some okStubClient) true false false true false pwdProbeState
    "password" "password" "password" { name := "New Chat", history := [] }
    (by decide) (by decide) (by decide)
    (fun p => by change "ok" ≠ game_invite_msg; decide)
    (by decide) (by decide) (by decide)
    (by decide) (by decide) (by decide)
    (by decide) (by decide) (by decide)

end CyberSecBot
